import Mathlib

/-!
Verification of the ParkWatch bot's report lifecycle and feedback/moderation
engine against its natural-language specification.

The Python sources are shallowly embedded: the durable store (SQLite /
PostgreSQL rows) becomes an explicit `DBState` record of association lists,
timestamps become integer seconds, SQL numeric columns become `Int`, and the
floating-point ratio test in the auto-flag check becomes the corresponding
exact rational comparison.  Request handlers become pure functions from a
state to a new state plus a typed result; Python exceptions become `Except`.
-/

namespace ParkWatch

/-- The `vote` column of the `feedback` table: 'positive' or 'negative'. -/
inductive Vote where
  | positive
  | negative
deriving DecidableEq, Repr

/-- A row of the `sightings` table (`database.py`, `create_tables`), with the
`flagged` column added by migration 003.  GPS is `none` when `lat`/`lng` are
NULL; coordinates are rationals, timestamps are seconds. -/
structure Sighting where
  zone : String
  description : Option String
  reported_at : Int
  reporter_id : Int
  reporter_name : String
  reporter_badge : String
  gps : Option (ℚ × ℚ)
  feedback_positive : Int
  feedback_negative : Int
  flagged : Bool
deriving DecidableEq, Repr

/-- A row of the `users` table (with the `warnings` column of migration 003). -/
structure UserRow where
  username : String
  report_count : Int
  warnings : Int
deriving DecidableEq, Repr

/-- A row of the `banned_users` table (migration 003). -/
structure BanRow where
  banned_by : Int
  reason : Option String
deriving DecidableEq, Repr

/-- An `admin_actions` audit-log row (migration 002). -/
structure AdminAction where
  admin_id : Int
  action : String
  target : Option String
  detail : Option String
deriving DecidableEq, Repr

/-- The durable store: each field is one table, keyed as in the schema
(`sightings.id` TEXT primary key, `feedback` keyed by
`(sighting_id, user_id)`, `subscriptions` keyed by `(telegram_id, zone_name)`,
`users` and `banned_users` keyed by `telegram_id`). -/
structure DBState where
  sightings : List (String × Sighting)
  feedback : List (String × Int × Vote)
  subscriptions : List (Int × String)
  users : List (Int × UserRow)
  banned : List (Int × BanRow)
  admin_actions : List AdminAction
deriving DecidableEq, Repr

/-- The empty database, as produced by `create_tables`. -/
def emptyDB : DBState := ⟨[], [], [], [], [], []⟩

/-! ### Configuration constants (`config.py`) -/

def SIGHTING_EXPIRY_MINUTES : Int := 30
def MAX_REPORTS_PER_HOUR : Nat := 3
def DUPLICATE_WINDOW_MINUTES : Int := 5
def DUPLICATE_RADIUS_METERS : ℚ := 200
def FEEDBACK_WINDOW_HOURS : Int := 24

/-! ### Pure utilities (`bot/utils.py`) -/

/-- `get_reporter_badge` (`utils.py`): badge tier from lifetime report count. -/
def get_reporter_badge (report_count : Int) : String :=
  if 51 ≤ report_count then "Veteran"
  else if 11 ≤ report_count then "Trusted"
  else if 3 ≤ report_count then "Regular"
  else "New"

/-- `get_accuracy_indicator` (`utils.py`). -/
def get_accuracy_indicator (accuracy_score : ℚ) (total_feedback : Int) : String :=
  if total_feedback < 3 then ""
  else if (8 : ℚ)/10 ≤ accuracy_score then "high"
  else if (5 : ℚ)/10 ≤ accuracy_score then "mixed"
  else "low"

/-- Python whitespace (`str.isspace` / the `\s` class of the `re` module on
`str` patterns): ASCII whitespace plus the Unicode whitespace code points. -/
def isPySpace (c : Char) : Bool :=
  c == ' ' || c == '\t' || c == '\n' || c == '\r' || c == '\x0b' || c == '\x0c' ||
  c == '\x1c' || c == '\x1d' || c == '\x1e' || c == '\x1f' || c == '\x85' ||
  c == '\u00a0' || c == '\u1680' ||
  (('\u2000' ≤ c && c ≤ '\u200a') : Bool) ||
  c == '\u2028' || c == '\u2029' || c == '\u202f' || c == '\u205f' || c == '\u3000'

/-- Python `str.strip()`: drop leading and trailing whitespace. -/
def pyStrip (l : List Char) : List Char :=
  ((l.dropWhile isPySpace).reverse.dropWhile isPySpace).reverse

/-- The control characters removed by `sanitize_description`:
`[\x00-\x08\x0b\x0c\x0e-\x1f]` (newline and tab are kept). -/
def isRemovedControl (c : Char) : Bool :=
  (c ≤ '\x08' : Bool) || c == '\x0b' || c == '\x0c' ||
  (('\x0e' ≤ c && c ≤ '\x1f') : Bool)

theorem dropWhile_length_le (p : Char → Bool) (l : List Char) :
    (l.dropWhile p).length ≤ l.length := by
  induction l with
  | nil => simp
  | cons a t ih =>
    by_cases h : p a
    · simpa [List.dropWhile, h] using Nat.le_succ_of_le ih
    · simp [List.dropWhile, h]

/-- One match attempt of the regex `<[^>]+>` at a position just after a `<`:
`[^>]+` greedily takes the non-`>` run, which must be non-empty; the next
character must be `>` (the drop-while remainder is non-empty exactly when a
`>` follows).  Returns the remainder after the match, or `none` if no match. -/
def tagSplit (l : List Char) : Option (List Char) :=
  if (l.takeWhile (fun x => x != '>')).isEmpty then none
  else if (l.dropWhile (fun x => x != '>')).isEmpty then none
  else some (l.dropWhile (fun x => x != '>')).tail

theorem tagSplit_length {l r : List Char} (h : tagSplit l = some r) :
    r.length < l.length := by
  unfold tagSplit at h
  by_cases h1 : (l.takeWhile (fun x => x != '>')).isEmpty
  · simp [h1] at h
  · by_cases h2 : (l.dropWhile (fun x => x != '>')).isEmpty
    · simp [h1, h2] at h
    · simp only [if_neg h1, if_neg h2, Option.some.injEq] at h
      subst h
      have h3 : (l.takeWhile (fun x => x != '>')).length
          + (l.dropWhile (fun x => x != '>')).length = l.length := by
        rw [← List.length_append,
          List.takeWhile_append_dropWhile (p := fun x => x != '>') (l := l)]
      have h4 : 0 < (l.takeWhile (fun x => x != '>')).length := by
        cases htw : l.takeWhile (fun x => x != '>') with
        | nil => rw [htw] at h1; simp at h1
        | cons a t => simp [htw]
      have h5 : 0 < (l.dropWhile (fun x => x != '>')).length := by
        cases hdw : l.dropWhile (fun x => x != '>') with
        | nil => rw [hdw] at h2; simp at h2
        | cons a t => simp [hdw]
      have h6 := List.length_tail (l.dropWhile (fun x => x != '>'))
      omega

/-- The substitution `re.sub(r"<[^>]+>", "", text)`: delete each leftmost
non-overlapping match of `<[^>]+>`. -/
def stripTags : List Char → List Char
  | [] => []
  | c :: rest =>
    if c = '<' then
      match h : tagSplit rest with
      | some rest2 => stripTags rest2
      | none => c :: stripTags rest
    else c :: stripTags rest
termination_by l => l.length
decreasing_by
  · exact Nat.lt_succ_of_lt (tagSplit_length h)
  · exact Nat.lt_succ_self _
  · exact Nat.lt_succ_self _

/-- Fuel-indexed worker for `collapseWs`; the fuel dominates the list length
so the recursion through `dropWhile` is structural in the fuel. -/
def collapseWsF : Nat → List Char → List Char
  | _, [] => []
  | Nat.succ n, c :: rest =>
    if isPySpace c then ' ' :: collapseWsF n (rest.dropWhile isPySpace)
    else c :: collapseWsF n rest
  | 0, l => l

theorem collapseWsF_congr :
    ∀ {n m : Nat} {l : List Char}, l.length ≤ n → l.length ≤ m →
      collapseWsF n l = collapseWsF m l := by
  intro n
  induction n with
  | zero =>
    intro m l h1 _
    cases l with
    | nil => cases m <;> rfl
    | cons c rest => simp at h1
  | succ n ih =>
    intro m l h1 h2
    cases l with
    | nil => cases m <;> rfl
    | cons c rest =>
      cases m with
      | zero => simp at h2
      | succ m =>
        simp only [List.length_cons, Nat.succ_le_succ_iff] at h1 h2
        simp only [collapseWsF]
        by_cases hc : isPySpace c
        · rw [if_pos hc, if_pos hc,
            ih ((dropWhile_length_le _ _).trans h1) ((dropWhile_length_le _ _).trans h2)]
        · rw [if_neg hc, if_neg hc, ih h1 h2]

/-- The substitution `re.sub(r"\s+", " ", text)`: replace each maximal run of
whitespace by a single space. -/
def collapseWs (l : List Char) : List Char := collapseWsF l.length l

theorem collapseWs_nil : collapseWs [] = [] := rfl

theorem collapseWs_cons_pos {c : Char} {rest : List Char} (hc : isPySpace c = true) :
    collapseWs (c :: rest) = ' ' :: collapseWs (rest.dropWhile isPySpace) := by
  show collapseWsF (rest.length + 1) (c :: rest) = _
  simp only [collapseWsF, if_pos hc]
  rw [collapseWsF_congr (dropWhile_length_le _ _) (le_refl _)]
  rfl

theorem collapseWs_cons_neg {c : Char} {rest : List Char} (hc : isPySpace c = false) :
    collapseWs (c :: rest) = c :: collapseWs rest := by
  show collapseWsF (rest.length + 1) (c :: rest) = _
  simp only [collapseWsF, if_neg (by simp [hc] : ¬ isPySpace c = true)]
  rfl

/-- `sanitize_description` (`utils.py`): strip, remove control characters,
strip HTML tags, collapse whitespace, strip again, truncate to 100
characters; `none` when the input or the result is empty.  The input `none`
(Python `None`) and the empty string are both falsy, hence the single
emptiness test at the top. -/
def sanitize_description (text : List Char) : Option (List Char) :=
  if text.isEmpty then none
  else
    let t1 := pyStrip text
    let t2 := t1.filter (fun c => !isRemovedControl c)
    let t3 := stripTags t2
    let t4 := collapseWs t3
    let t5 := pyStrip t4
    let t6 := t5.take 100
    if t6.isEmpty then none else some t6

/-! ### Lemmas about the sanitizer pipeline -/

theorem tagSplit_suffix {l r : List Char} (h : tagSplit l = some r) : r <:+ l := by
  unfold tagSplit at h
  by_cases h1 : (l.takeWhile (fun x => x != '>')).isEmpty
  · simp [h1] at h
  · by_cases h2 : (l.dropWhile (fun x => x != '>')).isEmpty
    · simp [h1, h2] at h
    · simp only [if_neg h1, if_neg h2, Option.some.injEq] at h
      subst h
      exact (List.tail_suffix _).trans (List.dropWhile_suffix _)

theorem stripTags_step_tag {rest rest2 : List Char} (heq : tagSplit rest = some rest2) :
    stripTags ('<' :: rest) = stripTags rest2 := by
  rw [stripTags, if_pos rfl]
  split
  · rename_i r2 heq2
    rw [heq] at heq2
    cases heq2
    rfl
  · rename_i heq2
    rw [heq] at heq2
    cases heq2

theorem stripTags_step_notag {rest : List Char} (heq : tagSplit rest = none) :
    stripTags ('<' :: rest) = '<' :: stripTags rest := by
  rw [stripTags, if_pos rfl]
  split
  · rename_i r2 heq2
    rw [heq] at heq2
    cases heq2
  · rfl

theorem stripTags_step_plain {c : Char} {rest : List Char} (hc : ¬ c = '<') :
    stripTags (c :: rest) = c :: stripTags rest := by
  rw [stripTags]
  simp [hc]

theorem stripTags_sublist (l : List Char) : List.Sublist (stripTags l) l := by
  induction l using stripTags.induct with
  | case1 => simp [stripTags]
  | case2 rest rest2 heq ih =>
    rw [stripTags_step_tag heq]
    exact ih.trans ((tagSplit_suffix heq).sublist.trans (List.sublist_cons_self _ rest))
  | case3 rest heq ih =>
    rw [stripTags_step_notag heq]
    exact List.Sublist.cons₂ _ ih
  | case4 c rest hc ih =>
    rw [stripTags_step_plain hc]
    exact List.Sublist.cons₂ c ih

theorem dropWhile_head_not {p : Char → Bool} {l : List Char} {c : Char} {t : List Char}
    (h : l.dropWhile p = c :: t) : p c = false := by
  induction l generalizing c t with
  | nil => simp at h
  | cons a rest ih =>
    by_cases ha : p a
    · rw [List.dropWhile_cons_of_pos ha] at h
      exact ih h
    · rw [List.dropWhile_cons_of_neg ha] at h
      cases h
      simpa using ha

theorem collapseWs_mem_aux :
    ∀ (n : Nat) (l : List Char), l.length ≤ n →
      ∀ {c : Char}, c ∈ collapseWs l → c = ' ' ∨ c ∈ l := by
  intro n
  induction n with
  | zero =>
    intro l hl c h
    cases l with
    | nil => rw [collapseWs_nil] at h; simp at h
    | cons a rest => simp at hl
  | succ n ih =>
    intro l hl c h
    cases l with
    | nil => rw [collapseWs_nil] at h; simp at h
    | cons a rest =>
      simp only [List.length_cons, Nat.succ_le_succ_iff] at hl
      by_cases ha : isPySpace a
      · rw [collapseWs_cons_pos ha] at h
        rcases List.mem_cons.mp h with h | h
        · exact Or.inl h
        · rcases ih _ ((dropWhile_length_le _ _).trans hl) h with h | h
          · exact Or.inl h
          · exact Or.inr (List.mem_cons_of_mem _ ((List.dropWhile_suffix _).sublist.mem h))
      · rw [collapseWs_cons_neg (by simpa using ha)] at h
        rcases List.mem_cons.mp h with h | h
        · exact Or.inr (h ▸ List.mem_cons_self a rest)
        · rcases ih _ hl h with h | h
          · exact Or.inl h
          · exact Or.inr (List.mem_cons_of_mem _ h)

theorem collapseWs_mem {c : Char} {l : List Char} (h : c ∈ collapseWs l) :
    c = ' ' ∨ c ∈ l :=
  collapseWs_mem_aux l.length l (le_refl _) h

theorem collapseWs_head_not {l : List Char}
    (hl : ∀ c t, l = c :: t → isPySpace c = false) :
    ∀ {b}, (collapseWs l).head? = some b → isPySpace b = false := by
  intro b hb
  cases l with
  | nil => rw [collapseWs_nil] at hb; simp at hb
  | cons a rest =>
    have ha : isPySpace a = false := hl a rest rfl
    rw [collapseWs_cons_neg ha] at hb
    simp only [List.head?_cons, Option.some.injEq] at hb
    exact hb ▸ ha

theorem collapseWs_chain_aux :
    ∀ (n : Nat) (l : List Char), l.length ≤ n →
      (collapseWs l).Chain' (fun a b => isPySpace a = false ∨ isPySpace b = false) := by
  intro n
  induction n with
  | zero =>
    intro l hl
    cases l with
    | nil => rw [collapseWs_nil]; simp
    | cons a rest => simp at hl
  | succ n ih =>
    intro l hl
    cases l with
    | nil => rw [collapseWs_nil]; simp
    | cons a rest =>
      simp only [List.length_cons, Nat.succ_le_succ_iff] at hl
      by_cases ha : isPySpace a
      · rw [collapseWs_cons_pos ha]
        refine List.chain'_cons'.mpr ⟨?_, ih _ ((dropWhile_length_le _ _).trans hl)⟩
        intro b hb
        exact Or.inr (collapseWs_head_not (fun c t hct => dropWhile_head_not hct) hb)
      · rw [collapseWs_cons_neg (by simpa using ha)]
        refine List.chain'_cons'.mpr ⟨?_, ih _ hl⟩
        intro b _
        exact Or.inl (by simpa using ha)

/-- In the output of `collapseWs` no two adjacent characters are both
whitespace. -/
theorem collapseWs_chain (l : List Char) :
    (collapseWs l).Chain' (fun a b => isPySpace a = false ∨ isPySpace b = false) :=
  collapseWs_chain_aux l.length l (le_refl _)

theorem pyStrip_isPrefixOf (l : List Char) : pyStrip l <+: l.dropWhile isPySpace := by
  unfold pyStrip
  have h := List.dropWhile_suffix (l := (l.dropWhile isPySpace).reverse) isPySpace
  have h2 : ((l.dropWhile isPySpace).reverse.dropWhile isPySpace).reverse <+:
      (l.dropWhile isPySpace).reverse.reverse := by
    rw [List.reverse_prefix]
    simpa using h
  simpa using h2

theorem pyStrip_isInfixOf (l : List Char) : pyStrip l <:+: l :=
  (pyStrip_isPrefixOf l).isInfix.trans (List.dropWhile_suffix isPySpace).isInfix

theorem pyStrip_head_not {l : List Char} {c : Char} {t : List Char}
    (h : pyStrip l = c :: t) : isPySpace c = false := by
  rcases pyStrip_isPrefixOf l with ⟨s, hs⟩
  rw [h] at hs
  exact dropWhile_head_not (t := t ++ s) (by simpa using hs.symm)

/-- C10: every `some` result of `sanitize_description` is a non-empty string
of at most 100 characters that starts with a non-whitespace character,
contains no control character of `U+0000-U+0008, U+000B, U+000C,
U+000E-U+001F`, and has no two adjacent whitespace characters; the result is
`none` exactly when the input is empty or collapses to the empty string
under strip / control removal / tag removal / whitespace collapsing. -/
theorem sanitize_description_spec (text : List Char) :
    (∀ s, sanitize_description text = some s →
      s ≠ [] ∧ s.length ≤ 100 ∧
      (∀ c t, s = c :: t → isPySpace c = false) ∧
      (∀ c ∈ s, isRemovedControl c = false) ∧
      s.Chain' (fun a b => isPySpace a = false ∨ isPySpace b = false)) ∧
    (sanitize_description text = none ↔
      text = [] ∨
      pyStrip (collapseWs (stripTags
        ((pyStrip text).filter (fun c => !isRemovedControl c)))) = []) := by
  constructor
  · intro s hs
    unfold sanitize_description at hs
    by_cases hempty : text.isEmpty
    · simp [hempty] at hs
    · simp only [if_neg hempty] at hs
      set t2 := (pyStrip text).filter (fun c => !isRemovedControl c) with ht2
      set t3 := stripTags t2 with ht3
      set t4 := collapseWs t3 with ht4
      set t5 := pyStrip t4 with ht5
      by_cases h6 : (t5.take 100).isEmpty
      · simp [h6] at hs
      · simp only [if_neg h6, Option.some.injEq] at hs
        subst hs
        refine ⟨?_, ?_, ?_, ?_, ?_⟩
        · intro hnil
          rw [hnil] at h6
          simp at h6
        · simpa using List.length_take_le 100 t5
        · intro c t hct
          cases h5 : t5 with
          | nil => rw [h5] at hct; simp at hct
          | cons d t5t =>
            rw [h5] at hct
            simp only [List.take_succ_cons, List.cons.injEq] at hct
            exact hct.1 ▸ pyStrip_head_not h5
        · intro c hc
          have hc5 : c ∈ t5 := (List.take_prefix 100 t5).sublist.mem hc
          have hc4 : c ∈ t4 := (pyStrip_isInfixOf t4).sublist.mem hc5
          rcases collapseWs_mem hc4 with hsp | hc3
          · subst hsp; decide
          · have hc2 : c ∈ t2 := (stripTags_sublist t2).mem hc3
            rw [ht2] at hc2
            have := List.mem_filter.mp hc2
            simpa using this.2
        · have hch := List.Chain'.infix (collapseWs_chain t3) (pyStrip_isInfixOf t4)
          exact hch.take 100
  · unfold sanitize_description
    by_cases hempty : text.isEmpty
    · simp only [if_pos hempty, true_iff]
      exact Or.inl (List.isEmpty_iff.mp hempty)
    · simp only [if_neg hempty]
      constructor
      · intro h
        split at h
        · rename_i h6
          refine Or.inr ?_
          rcases (List.take_eq_nil_iff).mp (List.isEmpty_iff.mp h6) with h100 | h5
          · simp at h100
          · exact h5
        · simp at h
      · intro h
        rcases h with h | h
        · exact absurd (by simp [h] : text.isEmpty = true) hempty
        · rw [h]
          simp

/-! ### Store operations (`bot/database.py`)

Each method of the `Database` class becomes a pure function on `DBState`.
SQL `WHERE key = x` lookups become `find?` over the association lists; the
`ON CONFLICT ... DO UPDATE` upserts become update-or-append. -/

/-- `get_sighting`: `SELECT * FROM sightings WHERE id = ?`. -/
def lookupSighting (st : DBState) (sid : String) : Option Sighting :=
  (st.sightings.find? (fun p => p.1 == sid)).map (fun p => p.2)

/-- `get_sighting_reporter`: reporter id of a sighting, for self-vote checks. -/
def get_sighting_reporter (st : DBState) (sid : String) : Option Int :=
  (lookupSighting st sid).map (fun s => s.reporter_id)

/-- `get_user_feedback`: the voter's existing vote on a sighting, if any. -/
def get_user_feedback (st : DBState) (sid : String) (uid : Int) : Option Vote :=
  (st.feedback.find? (fun e => e.1 == sid && e.2.1 == uid)).map (fun e => e.2.2)

/-- `set_feedback`: upsert of the `(sighting_id, user_id)` vote row
(`INSERT ... ON CONFLICT(sighting_id, user_id) DO UPDATE SET vote`). -/
def set_feedback (st : DBState) (sid : String) (uid : Int) (vote : Vote) : DBState :=
  if st.feedback.any (fun e => e.1 == sid && e.2.1 == uid) then
    { st with feedback := st.feedback.map (fun e =>
        if e.1 == sid && e.2.1 == uid then (sid, uid, vote) else e) }
  else
    { st with feedback := st.feedback ++ [(sid, uid, vote)] }

/-- The row assignment of `update_feedback_counts`. -/
def addDeltas (positive_delta negative_delta : Int) (s : Sighting) : Sighting :=
  { s with feedback_positive := s.feedback_positive + positive_delta,
           feedback_negative := s.feedback_negative + negative_delta }

/-- `update_feedback_counts`: `UPDATE sightings SET feedback_positive =
feedback_positive + ?, feedback_negative = feedback_negative + ? WHERE id = ?`. -/
def update_feedback_counts (st : DBState) (sid : String)
    (positive_delta negative_delta : Int) : DBState :=
  { st with sightings := st.sightings.map (fun p =>
      if p.1 == sid then (p.1, addDeltas positive_delta negative_delta p.2) else p) }

/-- The delta computation inside `apply_feedback`: reverse a previous
opposite vote (−1 on its kind), then +1 for the new kind. -/
def vote_deltas (previous : Option Vote) (new_vote : Vote) : Int × Int :=
  let d1 : Int × Int :=
    match previous with
    | some Vote.positive => (-1, 0)
    | some Vote.negative => (0, -1)
    | none => (0, 0)
  match new_vote with
  | Vote.positive => (d1.1 + 1, d1.2)
  | Vote.negative => (d1.1, d1.2 + 1)

/-- Database-level errors raised by `apply_feedback`: the
`ValueError("duplicate_vote")` and any other storage exception (in
particular the foreign-key violation when the sighting row is absent). -/
inductive DBErr where
  | duplicate_vote
  | storage
deriving DecidableEq, Repr

/-- `Database.apply_feedback`, sequential (failure-free) semantics shared by
both drivers: read the previous vote, raise on a duplicate, compute the
deltas, upsert the vote row, apply the deltas, return the updated sighting.
When the sighting row is absent the vote `INSERT` violates the
`feedback.sighting_id` foreign key and the call raises a storage error with
no committed write. -/
def apply_feedback (st : DBState) (sid : String) (uid : Int) (new_vote : Vote) :
    Except DBErr (DBState × Option Sighting) :=
  let previous := get_user_feedback st sid uid
  if previous = some new_vote then Except.error DBErr.duplicate_vote
  else if (lookupSighting st sid).isNone then Except.error DBErr.storage
  else
    let d := vote_deltas previous new_vote
    let st1 := set_feedback st sid uid new_vote
    let st2 := update_feedback_counts st1 sid d.1 d.2
    Except.ok (st2, lookupSighting st2 sid)

/-- `get_subscriptions`: zone names a user is subscribed to. -/
def get_subscriptions (st : DBState) (uid : Int) : List String :=
  (st.subscriptions.filter (fun p => p.1 == uid)).map (fun p => p.2)

/-- `add_subscription` (`INSERT ... ON CONFLICT DO NOTHING`). -/
def add_subscription (st : DBState) (uid : Int) (zone : String) : DBState :=
  if st.subscriptions.any (fun p => p.1 == uid && p.2 == zone) then st
  else { st with subscriptions := st.subscriptions ++ [(uid, zone)] }

/-- `clear_subscriptions`: `DELETE FROM subscriptions WHERE telegram_id = ?`. -/
def clear_subscriptions (st : DBState) (uid : Int) : DBState :=
  { st with subscriptions := st.subscriptions.filter (fun p => !(p.1 == uid)) }

/-- `get_zone_subscribers`: telegram ids subscribed to a zone. -/
def get_zone_subscribers (st : DBState) (zone : String) : List Int :=
  (st.subscriptions.filter (fun p => p.2 == zone)).map (fun p => p.1)

/-- `ensure_user`: create the user row or update its username. -/
def ensure_user (st : DBState) (uid : Int) (username : String) : DBState :=
  if st.users.any (fun p => p.1 == uid) then
    { st with users := st.users.map (fun p =>
        if p.1 == uid then (p.1, { p.2 with username := username }) else p) }
  else
    { st with users := st.users ++ [(uid, ⟨username, 0, 0⟩)] }

/-- `increment_report_count`: add one and return the new value (0 when the
user row is absent, mirroring the `row["report_count"] if row else 0`). -/
def increment_report_count (st : DBState) (uid : Int) : DBState × Int :=
  let st1 : DBState := { st with users := st.users.map (fun p =>
    if p.1 == uid then (p.1, { p.2 with report_count := p.2.report_count + 1 }) else p) }
  match st1.users.find? (fun p => p.1 == uid) with
  | some p => (st1, p.2.report_count)
  | none => (st1, 0)

/-- `add_sighting`: `INSERT INTO sightings ... VALUES (..., 0, 0)`; fails on
a primary-key collision. -/
def add_sighting (st : DBState) (sid : String) (s : Sighting) : Option DBState :=
  if st.sightings.any (fun p => p.1 == sid) then none
  else some { st with sightings := st.sightings ++ [(sid, s)] }

/-- `find_recent_zone_sightings`: sightings of the zone with
`reported_at > now − window`, newest first (`ORDER BY reported_at DESC`). -/
def find_recent_zone_sightings (st : DBState) (zone : String)
    (window_minutes : Int) (now : Int) : List (String × Sighting) :=
  List.insertionSort (fun a b => b.2.reported_at ≤ a.2.reported_at)
    (st.sightings.filter (fun p =>
      p.2.zone == zone && decide (now - window_minutes * 60 < p.2.reported_at)))

/-- `count_reports_since`: `COUNT(*)` of the reporter's sightings with
`reported_at > since`. -/
def count_reports_since (st : DBState) (uid : Int) (since : Int) : Nat :=
  (st.sightings.filter (fun p =>
    p.2.reporter_id == uid && decide (since < p.2.reported_at))).length

/-- `get_oldest_report_since`: `MIN(reported_at)` over the same rows. -/
def get_oldest_report_since (st : DBState) (uid : Int) (since : Int) : Option Int :=
  ((st.sightings.filter (fun p =>
    p.2.reporter_id == uid && decide (since < p.2.reported_at))).map
      (fun p => p.2.reported_at)).min?

/-- `calculate_accuracy`: sum `feedback_positive` / `feedback_negative` over
ALL sightings by the reporter; `(0, 0)` when there is no feedback. -/
def calculate_accuracy (st : DBState) (uid : Int) : ℚ × Int :=
  let mine := st.sightings.filter (fun p => p.2.reporter_id == uid)
  let pos := (mine.map (fun p => p.2.feedback_positive)).sum
  let neg := (mine.map (fun p => p.2.feedback_negative)).sum
  let total := pos + neg
  if total = 0 then (0, 0) else ((pos : ℚ) / (total : ℚ), total)

/-- Modelled from the spec: `Database.flag_sighting` is called by
`_check_auto_flag` (`services/moderation.py`) but its definition is not in
the repository snapshot; per §4.8 it sets `flagged = true` on the sighting. -/
def setFlagged (s : Sighting) : Sighting := { s with flagged := true }

def flag_sighting (st : DBState) (sid : String) : DBState :=
  { st with sightings := st.sightings.map (fun p =>
      if p.1 == sid then (p.1, setFlagged p.2) else p) }

/-- Modelled from the spec: `Database.is_banned`, queried by the handlers;
true when a `banned_users` row for the user exists. -/
def is_banned (st : DBState) (uid : Int) : Bool :=
  st.banned.any (fun p => p.1 == uid)

/-- Modelled from the spec: `Database.ban_user` is invoked by `_admin_ban`
and by the auto-ban path of `_admin_warn` but is missing from the snapshot.
Per §4.8 (and the repository's tests) it clears all the user's
subscriptions and upserts the ban row, updating `banned_by`/`reason` when
the user is already banned. -/
def ban_user (st : DBState) (uid banned_by : Int) (reason : Option String) : DBState :=
  let st1 := clear_subscriptions st uid
  if st1.banned.any (fun p => p.1 == uid) then
    { st1 with banned := st1.banned.map (fun p =>
        if p.1 == uid then (uid, ⟨banned_by, reason⟩) else p) }
  else
    { st1 with banned := st1.banned ++ [(uid, ⟨banned_by, reason⟩)] }

/-- Modelled from the spec: `Database.unban_user`, deleting the ban row and
reporting whether the user had been banned. -/
def unban_user (st : DBState) (uid : Int) : DBState × Bool :=
  let was := is_banned st uid
  ({ st with banned := st.banned.filter (fun p => !(p.1 == uid)) }, was)

/-- Modelled from the spec: `Database.get_user_warnings` (0 when absent). -/
def get_user_warnings (st : DBState) (uid : Int) : Int :=
  match st.users.find? (fun p => p.1 == uid) with
  | some p => p.2.warnings
  | none => 0

/-- Modelled from the spec: `Database.increment_warnings`, adding one to the
user's warning counter and returning the new value. -/
def increment_warnings (st : DBState) (uid : Int) : DBState × Int :=
  let st1 : DBState := { st with users := st.users.map (fun p =>
    if p.1 == uid then (p.1, { p.2 with warnings := p.2.warnings + 1 }) else p) }
  ({ st1 with }, get_user_warnings st1 uid)

/-- The row assignment of `reset_warnings`. -/
def resetW (u : UserRow) : UserRow := { u with warnings := 0 }

/-- Modelled from the spec: `Database.reset_warnings`, setting the counter
to zero. -/
def reset_warnings (st : DBState) (uid : Int) : DBState :=
  { st with users := st.users.map (fun p =>
      if p.1 == uid then (p.1, resetW p.2) else p) }

/-- Modelled from the spec: `Database.log_admin_action`, appending one
audit-log row. -/
def log_admin_action (st : DBState) (admin_id : Int) (action : String)
    (target detail : Option String) : DBState :=
  { st with admin_actions := st.admin_actions ++ [⟨admin_id, action, target, detail⟩] }

/-! ### Moderation service (`bot/services/moderation.py`) -/

/-- `_check_auto_flag`: after a feedback update, re-read the sighting and
flag it when `total >= 3 and neg / total > 0.7`; the float division becomes
exact rational division. -/
def check_auto_flag (st : DBState) (sid : String) : DBState :=
  match lookupSighting st sid with
  | none => st
  | some s =>
    let pos := s.feedback_positive
    let neg := s.feedback_negative
    let total := pos + neg
    if 3 ≤ total ∧ (7 : ℚ)/10 < (neg : ℚ) / (total : ℚ) then flag_sighting st sid
    else st

/-! ### Notification service (`bot/services/notifications.py`) -/

/-- Outcome of one `bot.send_message` call: success, the `Forbidden` error
(recipient blocked the bot), or any other exception. -/
inductive SendOutcome where
  | delivered
  | forbidden
  | otherError
deriving DecidableEq, Repr

/-- The environment of a broadcast: what each send attempt would return, and
whether each `clear_subscriptions` call during cleanup would succeed. -/
structure BroadcastEnv where
  send : Int → SendOutcome
  pruneOk : Int → Bool

/-- Per-recipient loop accumulator of `broadcast_alert`. -/
structure BroadcastStats where
  sent : Nat
  failed : Nat
  blocked : List Int
deriving DecidableEq, Repr

/-- `broadcast_alert`: send to every zone subscriber except the reporter,
counting outcomes and recording `Forbidden` recipients; afterwards clear all
subscriptions of each blocked recipient, ignoring cleanup failures.  Every
per-recipient exception is absorbed; the caller receives only the
aggregate. -/
def broadcast_alert (env : BroadcastEnv) (st : DBState) (zone : String)
    (reporter_id : Int) : DBState × BroadcastStats :=
  let subscribers := get_zone_subscribers st zone
  let stats := subscribers.foldl (fun acc uid =>
    if uid == reporter_id then acc
    else
      match env.send uid with
      | SendOutcome.delivered => { acc with sent := acc.sent + 1 }
      | SendOutcome.forbidden =>
          { acc with blocked := acc.blocked ++ [uid], failed := acc.failed + 1 }
      | SendOutcome.otherError => { acc with failed := acc.failed + 1 })
    ⟨0, 0, []⟩
  let st1 := stats.blocked.foldl (fun s uid =>
    if env.pruneOk uid then clear_subscriptions s uid else s) st
  (st1, stats)

/-! ### Feedback handler (`bot/handlers/report.py`, `handle_feedback`) -/

/-- The outcomes a feedback attempt presents to the user. -/
inductive FeedbackResult where
  | updated (s : Sighting)
  | notFound
  | selfVote
  | windowClosed
  | duplicateVote
deriving DecidableEq, Repr

/-- `handle_feedback`: self-rating prevention, feedback-window check,
transactional apply, then the auto-flag check.  The only caught database
error is the duplicate-vote `ValueError`; any other storage error
propagates (`Except.error`). -/
def handle_feedback (st : DBState) (sid : String) (uid : Int)
    (is_positive : Bool) (now : Int) : Except DBErr (DBState × FeedbackResult) :=
  match get_sighting_reporter st sid with
  | none => Except.ok (st, FeedbackResult.notFound)
  | some reporter_id =>
    if reporter_id = uid then Except.ok (st, FeedbackResult.selfVote)
    else
      let window_over :=
        match lookupSighting st sid with
        | some s => decide (FEEDBACK_WINDOW_HOURS * 3600 < now - s.reported_at)
        | none => false
      if window_over then Except.ok (st, FeedbackResult.windowClosed)
      else
        let new_vote := if is_positive then Vote.positive else Vote.negative
        match apply_feedback st sid uid new_vote with
        | Except.error DBErr.duplicate_vote => Except.ok (st, FeedbackResult.duplicateVote)
        | Except.error DBErr.storage => Except.error DBErr.storage
        | Except.ok (st1, none) => Except.ok (st1, FeedbackResult.notFound)
        | Except.ok (st1, some s) =>
          Except.ok (check_auto_flag st1 sid, FeedbackResult.updated s)

/-! ### Report handler (`bot/handlers/report.py`, `handle_report_confirm`) -/

/-- The outcomes of confirming a report. -/
inductive ReportResult where
  | rateLimited (wait_mins : Nat)
  | duplicate (existing : String × Sighting)
  | accepted (sighting_id : String)
deriving DecidableEq, Repr

/-- The duplicate-detection scan over the window's candidates, newest first
(the `for existing in recent_sightings` loop): with GPS on both sides a
candidate farther than the radius is skipped and the scan continues, one
within the radius is the duplicate; without GPS on either side the first
candidate reached is the duplicate. -/
def dup_scan (d : ℚ × ℚ → ℚ × ℚ → ℚ) (gps : Option (ℚ × ℚ)) :
    List (String × Sighting) → Option (String × Sighting)
  | [] => none
  | existing :: rest =>
    match gps, existing.2.gps with
    | some g, some eg =>
      if DUPLICATE_RADIUS_METERS < d g eg then dup_scan d gps rest
      else some existing
    | _, _ => some existing

/-- `handle_report_confirm`, the storage-relevant part: rate limiting,
GPS-aware duplicate detection, then user upsert, report-count increment,
sighting insert and broadcast.  `d` abstracts `haversine_meters`; `sid` is
the generated UUID.  The second component is `none` when the sighting
insert fails on an id collision (the uncaught exception case); the returned
state then reflects the writes already committed. -/
def handle_report_confirm (d : ℚ × ℚ → ℚ × ℚ → ℚ) (env : BroadcastEnv)
    (st : DBState) (uid : Int) (username : String) (zone : String)
    (gps : Option (ℚ × ℚ)) (description : Option String) (sid : String)
    (now : Int) : DBState × Option ReportResult :=
  let one_hour_ago := now - 3600
  let report_count_hour := count_reports_since st uid one_hour_ago
  if MAX_REPORTS_PER_HOUR ≤ report_count_hour then
    let wait_secs : Int :=
      match get_oldest_report_since st uid one_hour_ago with
      | some oldest => oldest + 3600 - now
      | none => 3600
    let wait_mins : Nat := max 1 (wait_secs.toNat / 60 + 1)
    (st, some (ReportResult.rateLimited wait_mins))
  else
    match dup_scan d gps (find_recent_zone_sightings st zone DUPLICATE_WINDOW_MINUTES now) with
    | some existing => (st, some (ReportResult.duplicate existing))
    | none =>
      let st1 := ensure_user st uid username
      let r2 := increment_report_count st1 uid
      let badge := get_reporter_badge r2.2
      let s : Sighting :=
        { zone := zone, description := description, reported_at := now,
          reporter_id := uid, reporter_name := username, reporter_badge := badge,
          gps := gps, feedback_positive := 0, feedback_negative := 0, flagged := false }
      match add_sighting r2.1 sid s with
      | none => (r2.1, none)
      | some st3 =>
        let b := broadcast_alert env st3 zone uid
        (b.1, some (ReportResult.accepted sid))

/-! ### Admin handlers (`bot/handlers/admin.py`) -/

/-- `MAX_WARNINGS` (`config.py`, default 3; missing from the snapshot's
`config.py` but pinned by the tests). -/
def MAX_WARNINGS : Int := 3

/-- The outcomes of `/admin ban`. -/
inductive AdminBanResult where
  | cannotBanAdmin
  | alreadyBanned
  | banned
deriving DecidableEq, Repr

/-- `_admin_ban`: refuse admin targets, refuse already-banned targets,
otherwise ban (clearing subscriptions), log, and notify. -/
def admin_ban (admins : List Int) (st : DBState) (admin_id target_id : Int)
    (reason : Option String) : DBState × AdminBanResult :=
  if target_id ∈ admins then (st, AdminBanResult.cannotBanAdmin)
  else if is_banned st target_id then (st, AdminBanResult.alreadyBanned)
  else
    let st1 := ban_user st target_id admin_id reason
    let st2 := log_admin_action st1 admin_id "ban_user" (some (toString target_id))
      (reason.map (fun r => "reason: " ++ r))
    (st2, AdminBanResult.banned)

/-- `_admin_unban`: delete the ban row; when the user was banned, reset the
warning counter and log.  Returns whether the user had been banned. -/
def admin_unban (st : DBState) (admin_id target_id : Int) : DBState × Bool :=
  let r := unban_user st target_id
  if r.2 then
    let st1 := reset_warnings r.1 target_id
    let st2 := log_admin_action st1 admin_id "unban_user" (some (toString target_id)) none
    (st2, true)
  else (st, false)

/-- `_admin_warn`: require the user row to exist, increment the warning
counter, log, and when `MAX_WARNINGS > 0 and new_count >= MAX_WARNINGS`
auto-ban via `ban_user` (with no admin-target check on this path) and log
the auto-ban.  Returns the new warning count and whether the auto-ban
fired; `none` when the user row is absent. -/
def admin_warn (st : DBState) (admin_id target_id : Int) :
    DBState × Option (Int × Bool) :=
  match st.users.find? (fun p => p.1 == target_id) with
  | none => (st, none)
  | some _ =>
    let r := increment_warnings st target_id
    let new_count := r.2
    let st2 := log_admin_action r.1 admin_id "warn_user" (some (toString target_id))
      (some ("warning " ++ toString new_count))
    if 0 < MAX_WARNINGS ∧ MAX_WARNINGS ≤ new_count then
      let st3 := ban_user st2 target_id admin_id
        (some ("Auto-ban: " ++ toString new_count ++ " warnings reached"))
      let st4 := log_admin_action st3 admin_id "auto_ban" (some (toString target_id))
        (some "Warning count reached MAX_WARNINGS")
      (st4, some (new_count, true))
    else (st2, some (new_count, false))

/-! ### The report/feedback state machine (for the reachable-state
invariant of the feedback ledger) -/

/-- One externally-triggered operation: a confirmed report submission or a
feedback button press. -/
inductive Op where
  | report (env : BroadcastEnv) (uid : Int) (username : String) (zone : String)
      (gps : Option (ℚ × ℚ)) (description : Option String) (sid : String) (now : Int)
  | vote (sid : String) (uid : Int) (is_positive : Bool) (now : Int)

/-- The state transition of one operation (result discarded; a propagated
storage error leaves the state as the handler left it). -/
def step (d : ℚ × ℚ → ℚ × ℚ → ℚ) (st : DBState) : Op → DBState
  | Op.report env uid username zone gps description sid now =>
    (handle_report_confirm d env st uid username zone gps description sid now).1
  | Op.vote sid uid is_positive now =>
    match handle_feedback st sid uid is_positive now with
    | Except.ok r => r.1
    | Except.error _ => st

/-- Run a sequence of operations from a state. -/
def runOps (d : ℚ × ℚ → ℚ × ℚ → ℚ) (ops : List Op) (st : DBState) : DBState :=
  ops.foldl (step d) st

/-- The key of a vote row. -/
def voteKey (e : String × Int × Vote) : String × Int := (e.1, e.2.1)

/-- Number of stored votes of one kind for one sighting. -/
def countVotes (fb : List (String × Int × Vote)) (sid : String) (v : Vote) : Int :=
  ((fb.filter (fun e => e.1 == sid && e.2.2 == v)).length : Int)

/-- The feedback-ledger invariant: at most one vote row per
`(sighting, user)` pair, every vote row points at an existing sighting
(the foreign key), and each sighting's counters equal the number of stored
votes of each kind. -/
def Inv (st : DBState) : Prop :=
  (st.feedback.map voteKey).Nodup ∧
  (∀ e ∈ st.feedback, ∃ p ∈ st.sightings, p.1 = e.1) ∧
  (∀ p ∈ st.sightings,
    p.2.feedback_positive = countVotes st.feedback p.1 Vote.positive ∧
    p.2.feedback_negative = countVotes st.feedback p.1 Vote.negative)

/-! ### Association-list helper lemmas -/

theorem find?_map_upd_eq {α β : Type} [BEq α] [LawfulBEq α]
    (l : List (α × β)) (tgt : α) (g : β → β) :
    (l.map (fun p => if p.1 == tgt then (p.1, g p.2) else p)).find? (fun p => p.1 == tgt)
      = (l.find? (fun p => p.1 == tgt)).map (fun p => (p.1, g p.2)) := by
  induction l with
  | nil => simp
  | cons a rest ih =>
    simp only [List.map_cons]
    by_cases ha : a.1 = tgt
    · rw [if_pos (by simpa using ha)]
      rw [List.find?_cons_of_pos _ (by simpa using ha),
        List.find?_cons_of_pos _ (by simpa using ha)]
      simp
    · rw [if_neg (by simpa using ha)]
      rw [List.find?_cons_of_neg _ (by simpa using ha),
        List.find?_cons_of_neg _ (by simpa using ha)]
      exact ih

theorem find?_map_upd_ne {α β : Type} [BEq α] [LawfulBEq α]
    (l : List (α × β)) (tgt k : α) (g : β → β) (hk : k ≠ tgt) :
    (l.map (fun p => if p.1 == tgt then (p.1, g p.2) else p)).find? (fun p => p.1 == k)
      = l.find? (fun p => p.1 == k) := by
  induction l with
  | nil => simp
  | cons a rest ih =>
    simp only [List.map_cons]
    by_cases ha : a.1 = tgt
    · have hak : ¬ a.1 = k := by rw [ha]; exact fun h => hk h.symm
      rw [if_pos (by simpa using ha)]
      rw [List.find?_cons_of_neg _ (by simpa using hak),
        List.find?_cons_of_neg _ (by simpa using hak)]
      exact ih
    · rw [if_neg (by simpa using ha)]
      by_cases hak : a.1 = k
      · rw [List.find?_cons_of_pos _ (by simpa using hak),
          List.find?_cons_of_pos _ (by simpa using hak)]
      · rw [List.find?_cons_of_neg _ (by simpa using hak),
          List.find?_cons_of_neg _ (by simpa using hak)]
        exact ih

/-- Row lookup after `update_feedback_counts` on the same sighting. -/
theorem lookupSighting_update_eq (st : DBState) (sid : String) (dp dn : Int) :
    lookupSighting (update_feedback_counts st sid dp dn) sid
      = (lookupSighting st sid).map (addDeltas dp dn) := by
  unfold lookupSighting update_feedback_counts
  rw [find?_map_upd_eq]
  cases st.sightings.find? (fun p => p.1 == sid) <;> rfl

/-- Row lookup after `update_feedback_counts` on a different sighting. -/
theorem lookupSighting_update_ne (st : DBState) (sid k : String) (dp dn : Int)
    (hk : k ≠ sid) :
    lookupSighting (update_feedback_counts st sid dp dn) k = lookupSighting st k := by
  unfold lookupSighting update_feedback_counts
  rw [find?_map_upd_ne _ _ _ _ hk]

/-- Row lookup after `flag_sighting` on the same sighting. -/
theorem lookupSighting_flag_eq (st : DBState) (sid : String) :
    lookupSighting (flag_sighting st sid) sid
      = (lookupSighting st sid).map setFlagged := by
  unfold lookupSighting flag_sighting
  rw [find?_map_upd_eq]
  cases st.sightings.find? (fun p => p.1 == sid) <;> rfl

/-- Row lookup after `flag_sighting` on a different sighting. -/
theorem lookupSighting_flag_ne (st : DBState) (sid k : String) (hk : k ≠ sid) :
    lookupSighting (flag_sighting st sid) k = lookupSighting st k := by
  unfold lookupSighting flag_sighting
  rw [find?_map_upd_ne _ _ _ _ hk]

/-- `set_feedback` leaves the sightings table untouched. -/
theorem sightings_set_feedback (st : DBState) (sid : String) (uid : Int) (v : Vote) :
    (set_feedback st sid uid v).sightings = st.sightings := by
  unfold set_feedback
  split <;> rfl

theorem lookupSighting_set_feedback (st : DBState) (sid : String) (uid : Int) (v : Vote)
    (k : String) : lookupSighting (set_feedback st sid uid v) k = lookupSighting st k := by
  unfold lookupSighting
  rw [sightings_set_feedback]

/-! ### The shape of a successful feedback application -/

/-- On a present sighting and a non-duplicate vote, `apply_feedback`
upserts the vote, applies the deltas and returns the updated row. -/
theorem apply_feedback_ok (st : DBState) (sid : String) (uid : Int) (v : Vote)
    (s : Sighting) (hs : lookupSighting st sid = some s)
    (hv : get_user_feedback st sid uid ≠ some v) :
    apply_feedback st sid uid v = Except.ok
      (update_feedback_counts (set_feedback st sid uid v) sid
        (vote_deltas (get_user_feedback st sid uid) v).1
        (vote_deltas (get_user_feedback st sid uid) v).2,
       some (addDeltas (vote_deltas (get_user_feedback st sid uid) v).1
        (vote_deltas (get_user_feedback st sid uid) v).2 s)) := by
  unfold apply_feedback
  rw [if_neg hv, if_neg (by simp [hs])]
  have h2 : lookupSighting
      (update_feedback_counts (set_feedback st sid uid v) sid
        (vote_deltas (get_user_feedback st sid uid) v).1
        (vote_deltas (get_user_feedback st sid uid) v).2) sid
      = some (addDeltas (vote_deltas (get_user_feedback st sid uid) v).1
          (vote_deltas (get_user_feedback st sid uid) v).2 s) := by
    rw [lookupSighting_update_eq, lookupSighting_set_feedback, hs]
    rfl
  show Except.ok (update_feedback_counts (set_feedback st sid uid v) sid
      (vote_deltas (get_user_feedback st sid uid) v).1
      (vote_deltas (get_user_feedback st sid uid) v).2,
    lookupSighting (update_feedback_counts (set_feedback st sid uid v) sid
      (vote_deltas (get_user_feedback st sid uid) v).1
      (vote_deltas (get_user_feedback st sid uid) v).2) sid) = _
  rw [h2]

/-- The duplicate-vote branch of `apply_feedback`. -/
theorem apply_feedback_dup (st : DBState) (sid : String) (uid : Int) (v : Vote)
    (hv : get_user_feedback st sid uid = some v) :
    apply_feedback st sid uid v = Except.error DBErr.duplicate_vote := by
  unfold apply_feedback
  rw [if_pos hv]

/-- The fully-reduced shape of a successful `handle_feedback`. -/
theorem handle_feedback_updated (st : DBState) (sid : String) (uid : Int)
    (is_positive : Bool) (now : Int) (s : Sighting)
    (hs : lookupSighting st sid = some s) (hrep : s.reporter_id ≠ uid)
    (hw : ¬ FEEDBACK_WINDOW_HOURS * 3600 < now - s.reported_at)
    (hv : get_user_feedback st sid uid ≠
      some (if is_positive then Vote.positive else Vote.negative)) :
    handle_feedback st sid uid is_positive now = Except.ok
      (check_auto_flag
        (update_feedback_counts
          (set_feedback st sid uid (if is_positive then Vote.positive else Vote.negative)) sid
          (vote_deltas (get_user_feedback st sid uid)
            (if is_positive then Vote.positive else Vote.negative)).1
          (vote_deltas (get_user_feedback st sid uid)
            (if is_positive then Vote.positive else Vote.negative)).2) sid,
       FeedbackResult.updated (addDeltas
          (vote_deltas (get_user_feedback st sid uid)
            (if is_positive then Vote.positive else Vote.negative)).1
          (vote_deltas (get_user_feedback st sid uid)
            (if is_positive then Vote.positive else Vote.negative)).2 s)) := by
  unfold handle_feedback
  rw [show get_sighting_reporter st sid = some s.reporter_id by
    simp [get_sighting_reporter, hs]]
  simp only [if_neg (fun h => hrep h), hs]
  rw [if_neg (by simpa using hw)]
  rw [apply_feedback_ok st sid uid _ s hs hv]

/-- Branch equation: absent sighting. -/
theorem handle_feedback_notFound (st : DBState) (sid : String) (uid : Int)
    (is_positive : Bool) (now : Int) (h : lookupSighting st sid = none) :
    handle_feedback st sid uid is_positive now
      = Except.ok (st, FeedbackResult.notFound) := by
  unfold handle_feedback
  rw [show get_sighting_reporter st sid = none by simp [get_sighting_reporter, h]]

/-- Branch equation: the reporter voting on their own sighting. -/
theorem handle_feedback_selfVote (st : DBState) (sid : String) (uid : Int)
    (is_positive : Bool) (now : Int) (s : Sighting)
    (h : lookupSighting st sid = some s) (hrep : s.reporter_id = uid) :
    handle_feedback st sid uid is_positive now
      = Except.ok (st, FeedbackResult.selfVote) := by
  unfold handle_feedback
  rw [show get_sighting_reporter st sid = some s.reporter_id by
    simp [get_sighting_reporter, h]]
  simp [hrep]

/-- Branch equation: closed feedback window. -/
theorem handle_feedback_windowClosed (st : DBState) (sid : String) (uid : Int)
    (is_positive : Bool) (now : Int) (s : Sighting)
    (h : lookupSighting st sid = some s) (hrep : s.reporter_id ≠ uid)
    (hw : FEEDBACK_WINDOW_HOURS * 3600 < now - s.reported_at) :
    handle_feedback st sid uid is_positive now
      = Except.ok (st, FeedbackResult.windowClosed) := by
  unfold handle_feedback
  rw [show get_sighting_reporter st sid = some s.reporter_id by
    simp [get_sighting_reporter, h]]
  simp only [if_neg (fun hh => hrep hh), h]
  rw [if_pos (by simpa using hw)]

/-- Branch equation: a repeated identical vote. -/
theorem handle_feedback_dupVote (st : DBState) (sid : String) (uid : Int)
    (is_positive : Bool) (now : Int) (s : Sighting)
    (h : lookupSighting st sid = some s) (hrep : s.reporter_id ≠ uid)
    (hw : ¬ FEEDBACK_WINDOW_HOURS * 3600 < now - s.reported_at)
    (hv : get_user_feedback st sid uid
      = some (if is_positive then Vote.positive else Vote.negative)) :
    handle_feedback st sid uid is_positive now
      = Except.ok (st, FeedbackResult.duplicateVote) := by
  unfold handle_feedback
  rw [show get_sighting_reporter st sid = some s.reporter_id by
    simp [get_sighting_reporter, h]]
  simp only [if_neg (fun hh => hrep hh), h]
  rw [if_neg (by simpa using hw)]
  rw [apply_feedback_dup st sid uid _ hv]

/-- C2: a feedback attempt yields the updated sighting or exactly one of
`NotFound`, `SelfVote`, `WindowClosed`, `DuplicateVote`, the checks applied
in that order (a reporter voting on their own sighting gets `SelfVote`
whatever the window state; a repeated identical vote gets `DuplicateVote`);
no database exception escapes, and every rejected attempt returns the state
unchanged — counters and stored votes untouched. -/
theorem handle_feedback_spec (st : DBState) (sid : String) (uid : Int)
    (is_positive : Bool) (now : Int) :
    (∃ out, handle_feedback st sid uid is_positive now = Except.ok out) ∧
    (lookupSighting st sid = none →
      handle_feedback st sid uid is_positive now
        = Except.ok (st, FeedbackResult.notFound)) ∧
    (∀ s, lookupSighting st sid = some s → s.reporter_id = uid →
      handle_feedback st sid uid is_positive now
        = Except.ok (st, FeedbackResult.selfVote)) ∧
    (∀ s, lookupSighting st sid = some s → s.reporter_id ≠ uid →
      FEEDBACK_WINDOW_HOURS * 3600 < now - s.reported_at →
      handle_feedback st sid uid is_positive now
        = Except.ok (st, FeedbackResult.windowClosed)) ∧
    (∀ s, lookupSighting st sid = some s → s.reporter_id ≠ uid →
      ¬ FEEDBACK_WINDOW_HOURS * 3600 < now - s.reported_at →
      get_user_feedback st sid uid
        = some (if is_positive then Vote.positive else Vote.negative) →
      handle_feedback st sid uid is_positive now
        = Except.ok (st, FeedbackResult.duplicateVote)) ∧
    (∀ s, lookupSighting st sid = some s → s.reporter_id ≠ uid →
      ¬ FEEDBACK_WINDOW_HOURS * 3600 < now - s.reported_at →
      get_user_feedback st sid uid
        ≠ some (if is_positive then Vote.positive else Vote.negative) →
      ∃ st' s', handle_feedback st sid uid is_positive now
        = Except.ok (st', FeedbackResult.updated s')) := by
  refine ⟨?_, handle_feedback_notFound st sid uid is_positive now,
    fun s h hrep => handle_feedback_selfVote st sid uid is_positive now s h hrep,
    fun s h hrep hw => handle_feedback_windowClosed st sid uid is_positive now s h hrep hw,
    fun s h hrep hw hv => handle_feedback_dupVote st sid uid is_positive now s h hrep hw hv,
    fun s h hrep hw hv =>
      ⟨_, _, handle_feedback_updated st sid uid is_positive now s h hrep hw hv⟩⟩
  cases h : lookupSighting st sid with
  | none => exact ⟨_, handle_feedback_notFound st sid uid is_positive now h⟩
  | some s =>
    by_cases hrep : s.reporter_id = uid
    · exact ⟨_, handle_feedback_selfVote st sid uid is_positive now s h hrep⟩
    · by_cases hw : FEEDBACK_WINDOW_HOURS * 3600 < now - s.reported_at
      · exact ⟨_, handle_feedback_windowClosed st sid uid is_positive now s h hrep hw⟩
      · by_cases hv : get_user_feedback st sid uid
            = some (if is_positive then Vote.positive else Vote.negative)
        · exact ⟨_, handle_feedback_dupVote st sid uid is_positive now s h hrep hw hv⟩
        · exact ⟨_, handle_feedback_updated st sid uid is_positive now s h hrep hw hv⟩

/-- C8: the accuracy score of a reporter is `positive/(positive+negative)`
with the counters summed over all sightings by that reporter, paired with
the total feedback count, and `(0, 0)` — never `(1, 0)` — when the total is
zero. -/
theorem calculate_accuracy_spec (st : DBState) (uid : Int) :
    (let mine := st.sightings.filter (fun p => p.2.reporter_id == uid)
     let pos := (mine.map (fun p => p.2.feedback_positive)).sum
     let neg := (mine.map (fun p => p.2.feedback_negative)).sum
     (pos + neg = 0 →
        calculate_accuracy st uid = (0, 0) ∧ calculate_accuracy st uid ≠ (1, 0)) ∧
     (pos + neg ≠ 0 →
        calculate_accuracy st uid
          = ((pos : ℚ) / ((pos + neg : Int) : ℚ), pos + neg))) := by
  refine ⟨?_, ?_⟩
  · intro h0
    unfold calculate_accuracy
    rw [if_pos h0]
    refine ⟨rfl, ?_⟩
    intro hcontra
    have : (0 : ℚ) = 1 := congrArg Prod.fst hcontra
    norm_num at this
  · intro hne
    unfold calculate_accuracy
    rw [if_neg hne]

/-! ### Auto-flag lemmas (C7) -/

/-- The flagging condition checked by `_check_auto_flag` on the re-read
sighting row: at least three votes and a negative ratio above 0.7. -/
def autoFlagCond (s : Sighting) : Prop :=
  3 ≤ s.feedback_positive + s.feedback_negative ∧
  (7 : ℚ)/10 < (s.feedback_negative : ℚ)
    / ((s.feedback_positive + s.feedback_negative : Int) : ℚ)

instance (s : Sighting) : Decidable (autoFlagCond s) := by
  unfold autoFlagCond
  infer_instance

theorem flag_sighting_idem (st : DBState) (sid : String) :
    flag_sighting (flag_sighting st sid) sid = flag_sighting st sid := by
  unfold flag_sighting
  simp only [List.map_map]
  congr 1
  apply List.map_congr_left
  intro p _
  by_cases hp : p.1 = sid
  · simp [Function.comp, hp, setFlagged]
  · simp [Function.comp, if_neg (by simpa using hp)]

/-- `check_auto_flag` on a present row is the conditional flagging. -/
theorem check_auto_flag_eq_ite (st : DBState) (sid : String) (s : Sighting)
    (hs : lookupSighting st sid = some s) :
    check_auto_flag st sid = if autoFlagCond s then flag_sighting st sid else st := by
  unfold check_auto_flag
  rw [hs]
  rfl

theorem check_auto_flag_none (st : DBState) (sid : String)
    (hs : lookupSighting st sid = none) : check_auto_flag st sid = st := by
  unfold check_auto_flag
  rw [hs]

theorem lookupSighting_check_auto_flag_ne (st : DBState) (sid k : String)
    (hk : k ≠ sid) :
    lookupSighting (check_auto_flag st sid) k = lookupSighting st k := by
  cases h : lookupSighting st sid with
  | none => rw [check_auto_flag_none st sid h]
  | some s =>
    rw [check_auto_flag_eq_ite st sid s h]
    by_cases hc : autoFlagCond s
    · rw [if_pos hc]
      exact lookupSighting_flag_ne st sid k hk
    · rw [if_neg hc]

theorem lookupSighting_check_auto_flag_eq (st : DBState) (sid : String)
    (s : Sighting) (hs : lookupSighting st sid = some s) :
    lookupSighting (check_auto_flag st sid) sid
      = some (if autoFlagCond s then setFlagged s else s) := by
  rw [check_auto_flag_eq_ite st sid s hs]
  by_cases hc : autoFlagCond s
  · rw [if_pos hc, if_pos hc, lookupSighting_flag_eq, hs]
    rfl
  · rw [if_neg hc, if_neg hc, hs]

theorem check_auto_flag_idem (st : DBState) (sid : String) :
    check_auto_flag (check_auto_flag st sid) sid = check_auto_flag st sid := by
  cases hs : lookupSighting st sid with
  | none => rw [check_auto_flag_none st sid hs, check_auto_flag_none st sid hs]
  | some s =>
    rw [check_auto_flag_eq_ite st sid s hs]
    by_cases hc : autoFlagCond s
    · rw [if_pos hc]
      have h1 : lookupSighting (flag_sighting st sid) sid = some (setFlagged s) := by
        rw [lookupSighting_flag_eq, hs]
        rfl
      rw [check_auto_flag_eq_ite _ sid (setFlagged s) h1]
      have hc2 : autoFlagCond (setFlagged s) := hc
      rw [if_pos hc2]
      exact flag_sighting_idem st sid
    · rw [if_neg hc]
      rw [check_auto_flag_eq_ite st sid s hs, if_neg hc]

theorem autoFlagCond_not_of_low {s : Sighting}
    (h : s.feedback_positive + s.feedback_negative < 3) : ¬ autoFlagCond s :=
  fun hc => absurd hc.1 (by omega)

/-- At a ratio of exactly 0.7 the strict comparison fails. -/
theorem autoFlagCond_not_of_boundary {s : Sighting}
    (h : 10 * s.feedback_negative = 7 * (s.feedback_positive + s.feedback_negative)) :
    ¬ autoFlagCond s := by
  rintro ⟨h3, hlt⟩
  have htot : (0 : Int) < s.feedback_positive + s.feedback_negative := by omega
  have htotQ : (0 : ℚ) < ((s.feedback_positive + s.feedback_negative : Int) : ℚ) := by
    exact_mod_cast htot
  have heq : (s.feedback_negative : ℚ)
      / ((s.feedback_positive + s.feedback_negative : Int) : ℚ) = 7/10 := by
    rw [div_eq_div_iff (ne_of_gt htotQ) (by norm_num : (10 : ℚ) ≠ 0)]
    have hq : (10 : ℚ) * (s.feedback_negative : ℚ)
        = 7 * ((s.feedback_positive + s.feedback_negative : Int) : ℚ) := by
      exact_mod_cast h
    linarith
  rw [heq] at hlt
  exact lt_irrefl _ hlt

/-- C7: after every feedback application the sighting is flagged when its
total vote count is at least 3 and the negative ratio is strictly above
0.7; the flag is unchanged when the ratio is exactly 0.7 or the total is
below 3; flagging is idempotent; and no feedback application ever clears an
existing flag. -/
theorem auto_flag_spec :
    (∀ st sid uid isp now st' s',
      handle_feedback st sid uid isp now = Except.ok (st', FeedbackResult.updated s') →
      ∃ s'', lookupSighting st' sid = some s'' ∧
        s''.feedback_positive = s'.feedback_positive ∧
        s''.feedback_negative = s'.feedback_negative ∧
        (autoFlagCond s' → s''.flagged = true) ∧
        (¬ autoFlagCond s' → s''.flagged = s'.flagged) ∧
        (s'.feedback_positive + s'.feedback_negative < 3 → s''.flagged = s'.flagged) ∧
        (10 * s'.feedback_negative = 7 * (s'.feedback_positive + s'.feedback_negative) →
          s''.flagged = s'.flagged)) ∧
    (∀ st sid uid isp now st' r,
      handle_feedback st sid uid isp now = Except.ok (st', r) →
      ∀ k s₀, lookupSighting st k = some s₀ → s₀.flagged = true →
        ∃ s₁, lookupSighting st' k = some s₁ ∧ s₁.flagged = true) ∧
    (∀ st sid, check_auto_flag (check_auto_flag st sid) sid = check_auto_flag st sid) := by
  refine ⟨?_, ?_, fun st sid => check_auto_flag_idem st sid⟩
  · intro st sid uid isp now st' s' heq
    cases h : lookupSighting st sid with
    | none =>
      rw [handle_feedback_notFound st sid uid isp now h] at heq
      simp at heq
    | some s =>
      by_cases hrep : s.reporter_id = uid
      · rw [handle_feedback_selfVote st sid uid isp now s h hrep] at heq
        simp at heq
      · by_cases hw : FEEDBACK_WINDOW_HOURS * 3600 < now - s.reported_at
        · rw [handle_feedback_windowClosed st sid uid isp now s h hrep hw] at heq
          simp at heq
        · by_cases hv : get_user_feedback st sid uid
              = some (if isp then Vote.positive else Vote.negative)
          · rw [handle_feedback_dupVote st sid uid isp now s h hrep hw hv] at heq
            simp at heq
          · rw [handle_feedback_updated st sid uid isp now s h hrep hw hv] at heq
            simp only [Except.ok.injEq, Prod.mk.injEq,
              FeedbackResult.updated.injEq] at heq
            obtain ⟨h1, h2⟩ := heq
            subst h1
            subst h2
            have hl2 : lookupSighting
                (update_feedback_counts
                  (set_feedback st sid uid (if isp then Vote.positive else Vote.negative)) sid
                  (vote_deltas (get_user_feedback st sid uid)
                    (if isp then Vote.positive else Vote.negative)).1
                  (vote_deltas (get_user_feedback st sid uid)
                    (if isp then Vote.positive else Vote.negative)).2) sid
                = some (addDeltas
                    (vote_deltas (get_user_feedback st sid uid)
                      (if isp then Vote.positive else Vote.negative)).1
                    (vote_deltas (get_user_feedback st sid uid)
                      (if isp then Vote.positive else Vote.negative)).2 s) := by
              rw [lookupSighting_update_eq, lookupSighting_set_feedback, h]
              rfl
            have hlook := lookupSighting_check_auto_flag_eq _ sid _ hl2
            refine ⟨_, hlook, ?_, ?_, ?_, ?_, ?_, ?_⟩
            · by_cases hc : autoFlagCond (addDeltas
                  (vote_deltas (get_user_feedback st sid uid)
                    (if isp then Vote.positive else Vote.negative)).1
                  (vote_deltas (get_user_feedback st sid uid)
                    (if isp then Vote.positive else Vote.negative)).2 s)
              · rw [if_pos hc]
                rfl
              · rw [if_neg hc]
            · by_cases hc : autoFlagCond (addDeltas
                  (vote_deltas (get_user_feedback st sid uid)
                    (if isp then Vote.positive else Vote.negative)).1
                  (vote_deltas (get_user_feedback st sid uid)
                    (if isp then Vote.positive else Vote.negative)).2 s)
              · rw [if_pos hc]
                rfl
              · rw [if_neg hc]
            · intro hc
              rw [if_pos hc]
              rfl
            · intro hc
              rw [if_neg hc]
            · intro hlow
              rw [if_neg (autoFlagCond_not_of_low hlow)]
            · intro hbd
              rw [if_neg (autoFlagCond_not_of_boundary hbd)]
  · intro st sid uid isp now st' r heq k s₀ hk hf
    cases h : lookupSighting st sid with
    | none =>
      rw [handle_feedback_notFound st sid uid isp now h] at heq
      simp only [Except.ok.injEq, Prod.mk.injEq] at heq
      rw [← heq.1]
      exact ⟨s₀, hk, hf⟩
    | some s =>
      by_cases hrep : s.reporter_id = uid
      · rw [handle_feedback_selfVote st sid uid isp now s h hrep] at heq
        simp only [Except.ok.injEq, Prod.mk.injEq] at heq
        rw [← heq.1]
        exact ⟨s₀, hk, hf⟩
      · by_cases hw : FEEDBACK_WINDOW_HOURS * 3600 < now - s.reported_at
        · rw [handle_feedback_windowClosed st sid uid isp now s h hrep hw] at heq
          simp only [Except.ok.injEq, Prod.mk.injEq] at heq
          rw [← heq.1]
          exact ⟨s₀, hk, hf⟩
        · by_cases hv : get_user_feedback st sid uid
              = some (if isp then Vote.positive else Vote.negative)
          · rw [handle_feedback_dupVote st sid uid isp now s h hrep hw hv] at heq
            simp only [Except.ok.injEq, Prod.mk.injEq] at heq
            rw [← heq.1]
            exact ⟨s₀, hk, hf⟩
          · rw [handle_feedback_updated st sid uid isp now s h hrep hw hv] at heq
            simp only [Except.ok.injEq, Prod.mk.injEq] at heq
            rw [← heq.1]
            by_cases hks : k = sid
            · subst hks
              have hss : s = s₀ := by
                rw [h] at hk
                exact Option.some.inj hk
              subst hss
              have hl2 : lookupSighting
                  (update_feedback_counts
                    (set_feedback st k uid (if isp then Vote.positive else Vote.negative)) k
                    (vote_deltas (get_user_feedback st k uid)
                      (if isp then Vote.positive else Vote.negative)).1
                    (vote_deltas (get_user_feedback st k uid)
                      (if isp then Vote.positive else Vote.negative)).2) k
                  = some (addDeltas
                      (vote_deltas (get_user_feedback st k uid)
                        (if isp then Vote.positive else Vote.negative)).1
                      (vote_deltas (get_user_feedback st k uid)
                        (if isp then Vote.positive else Vote.negative)).2 s) := by
                rw [lookupSighting_update_eq, lookupSighting_set_feedback, h]
                rfl
              refine ⟨_, lookupSighting_check_auto_flag_eq _ k _ hl2, ?_⟩
              by_cases hc : autoFlagCond (addDeltas
                  (vote_deltas (get_user_feedback st k uid)
                    (if isp then Vote.positive else Vote.negative)).1
                  (vote_deltas (get_user_feedback st k uid)
                    (if isp then Vote.positive else Vote.negative)).2 s)
              · rw [if_pos hc]
                rfl
              · rw [if_neg hc]
                exact hf
            · rw [lookupSighting_check_auto_flag_ne _ sid k hks,
                lookupSighting_update_ne _ sid k _ _ hks, lookupSighting_set_feedback]
              exact ⟨s₀, hk, hf⟩

/-! ### Duplicate-detection lemmas (C4) -/

theorem dup_scan_cons_none (d : ℚ × ℚ → ℚ × ℚ → ℚ) (a : String × Sighting)
    (rest : List (String × Sighting)) :
    dup_scan d none (a :: rest) = some a := by
  cases h : a.2.gps <;> simp [dup_scan, h]

theorem dup_scan_cons_nogps (d : ℚ × ℚ → ℚ × ℚ → ℚ) (g : ℚ × ℚ)
    (a : String × Sighting) (rest : List (String × Sighting)) (h : a.2.gps = none) :
    dup_scan d (some g) (a :: rest) = some a := by
  simp [dup_scan, h]

theorem dup_scan_cons_far (d : ℚ × ℚ → ℚ × ℚ → ℚ) (g eg : ℚ × ℚ)
    (a : String × Sighting) (rest : List (String × Sighting)) (h : a.2.gps = some eg)
    (hd : DUPLICATE_RADIUS_METERS < d g eg) :
    dup_scan d (some g) (a :: rest) = dup_scan d (some g) rest := by
  simp [dup_scan, h, hd]

theorem dup_scan_cons_near (d : ℚ × ℚ → ℚ × ℚ → ℚ) (g eg : ℚ × ℚ)
    (a : String × Sighting) (rest : List (String × Sighting)) (h : a.2.gps = some eg)
    (hd : ¬ DUPLICATE_RADIUS_METERS < d g eg) :
    dup_scan d (some g) (a :: rest) = some a := by
  simp [dup_scan, h, hd]

/-- Decomposition of a successful scan: everything before the declared
duplicate was a GPS-bearing candidate farther than the radius, and the
declared duplicate, when both sides carry GPS, is within the radius. -/
theorem dup_scan_some (d : ℚ × ℚ → ℚ × ℚ → ℚ) (gps : Option (ℚ × ℚ)) :
    ∀ (l : List (String × Sighting)) (c : String × Sighting),
      dup_scan d gps l = some c →
      ∃ l₁ l₂, l = l₁ ++ c :: l₂ ∧
        (∀ c' ∈ l₁, ∃ g cg, gps = some g ∧ c'.2.gps = some cg ∧
          DUPLICATE_RADIUS_METERS < d g cg) ∧
        (∀ g cg, gps = some g → c.2.gps = some cg →
          d g cg ≤ DUPLICATE_RADIUS_METERS) := by
  cases gps with
  | none =>
    intro l c h
    cases l with
    | nil => simp [dup_scan] at h
    | cons a rest =>
      rw [dup_scan_cons_none] at h
      cases h
      exact ⟨[], rest, rfl, by simp, fun g cg hgg _ => by simp at hgg⟩
  | some g =>
    intro l
    induction l with
    | nil => intro c h; simp [dup_scan] at h
    | cons a rest ih =>
      intro c h
      cases hag : a.2.gps with
      | none =>
        rw [dup_scan_cons_nogps d g a rest hag] at h
        cases h
        exact ⟨[], rest, rfl, by simp,
          fun g' cg hgg hcg => by rw [hag] at hcg; cases hcg⟩
      | some eg =>
        by_cases hd : DUPLICATE_RADIUS_METERS < d g eg
        · rw [dup_scan_cons_far d g eg a rest hag hd] at h
          obtain ⟨l₁, l₂, hl, hfar, hnear⟩ := ih c h
          refine ⟨a :: l₁, l₂, by simp [hl], ?_, hnear⟩
          intro c' hc'
          rcases List.mem_cons.mp hc' with hc' | hc'
          · exact ⟨g, eg, rfl, by rw [hc']; exact hag, hd⟩
          · exact hfar c' hc'
        · rw [dup_scan_cons_near d g eg a rest hag hd] at h
          cases h
          refine ⟨[], rest, rfl, by simp, ?_⟩
          intro g' cg hgg hcg
          cases hgg
          rw [hag] at hcg
          cases hcg
          exact le_of_not_lt hd

/-- An exhausted scan: every candidate carried GPS and was farther than the
radius (so the report is accepted). -/
theorem dup_scan_none (d : ℚ × ℚ → ℚ × ℚ → ℚ) (gps : Option (ℚ × ℚ)) :
    ∀ (l : List (String × Sighting)), dup_scan d gps l = none →
      ∀ c ∈ l, ∃ g cg, gps = some g ∧ c.2.gps = some cg ∧
        DUPLICATE_RADIUS_METERS < d g cg := by
  cases gps with
  | none =>
    intro l h c hc
    cases l with
    | nil => simp at hc
    | cons a rest =>
      rw [dup_scan_cons_none] at h
      cases h
  | some g =>
    intro l
    induction l with
    | nil => intro _ c hc; simp at hc
    | cons a rest ih =>
      intro h c hc
      cases hag : a.2.gps with
      | none =>
        rw [dup_scan_cons_nogps d g a rest hag] at h
        cases h
      | some eg =>
        by_cases hd : DUPLICATE_RADIUS_METERS < d g eg
        · rw [dup_scan_cons_far d g eg a rest hag hd] at h
          rcases List.mem_cons.mp hc with hc | hc
          · exact ⟨g, eg, rfl, by rw [hc]; exact hag, hd⟩
          · exact ih h c hc
        · rw [dup_scan_cons_near d g eg a rest hag hd] at h
          cases h

theorem dup_scan_no_gps (d : ℚ × ℚ → ℚ × ℚ → ℚ) (l : List (String × Sighting)) :
    dup_scan d none l = l.head? := by
  cases l with
  | nil => rfl
  | cons a rest => rw [dup_scan_cons_none, List.head?_cons]

/-- `ensure_user` and `increment_report_count` leave the sightings alone. -/
theorem sightings_ensure_user (st : DBState) (uid : Int) (username : String) :
    (ensure_user st uid username).sightings = st.sightings := by
  unfold ensure_user
  split <;> rfl

theorem sightings_increment_report_count (st : DBState) (uid : Int) :
    (increment_report_count st uid).1.sightings = st.sightings := by
  simp only [increment_report_count]
  split <;> rfl

/-! ### Concrete fixtures for scenario conjuncts, witnesses and
counterexamples -/

/-- A trivial distance function for scenarios that never reach it. -/
def dZero : ℚ × ℚ → ℚ × ℚ → ℚ := fun _ _ => 0

/-- A broadcast environment where every send succeeds. -/
def envAll : BroadcastEnv := ⟨fun _ => SendOutcome.delivered, fun _ => true⟩

def mkSighting (zone : String) (t : Int) (uid : Int) : Sighting :=
  ⟨zone, none, t, uid, "alice", "New", none, 0, 0, false⟩

/-- Three reports by user 1 in the trailing hour, oldest 120 s after epoch. -/
def stRate : DBState :=
  ⟨[("s1", mkSighting "Bugis" 120 1), ("s2", mkSighting "Bugis" 130 1),
    ("s3", mkSighting "Bugis" 140 1)], [], [], [], [], []⟩

/-- Two reports by user 1, both older than the duplicate window at `now = 340`. -/
def stTwo : DBState :=
  ⟨[("s1", mkSighting "Bugis" 10 1), ("s2", mkSighting "Bugis" 20 1)],
   [], [], [], [], []⟩

/-- C4: duplicate detection fetches the zone's sightings inside the
trailing window newest first and scans them in order: with GPS on both
sides a candidate within the radius is the duplicate and scanning stops, a
farther one is skipped; without GPS on either side the first candidate
reached is the duplicate with no distance check; an exhausted scan accepts
the report. -/
theorem duplicate_detection_spec (d : ℚ × ℚ → ℚ × ℚ → ℚ) (env : BroadcastEnv)
    (st : DBState) (zone : String) (gps : Option (ℚ × ℚ)) (now : Int) :
    (∀ p, p ∈ find_recent_zone_sightings st zone DUPLICATE_WINDOW_MINUTES now ↔
      (p ∈ st.sightings ∧ p.2.zone = zone ∧
        now - DUPLICATE_WINDOW_MINUTES * 60 < p.2.reported_at)) ∧
    (find_recent_zone_sightings st zone DUPLICATE_WINDOW_MINUTES now).Sorted
      (fun a b => b.2.reported_at ≤ a.2.reported_at) ∧
    (gps = none →
      dup_scan d gps (find_recent_zone_sightings st zone DUPLICATE_WINDOW_MINUTES now)
        = (find_recent_zone_sightings st zone DUPLICATE_WINDOW_MINUTES now).head?) ∧
    (∀ c, dup_scan d gps
        (find_recent_zone_sightings st zone DUPLICATE_WINDOW_MINUTES now) = some c →
      ∃ l₁ l₂,
        find_recent_zone_sightings st zone DUPLICATE_WINDOW_MINUTES now
          = l₁ ++ c :: l₂ ∧
        (∀ c' ∈ l₁, ∃ g cg, gps = some g ∧ c'.2.gps = some cg ∧
          DUPLICATE_RADIUS_METERS < d g cg) ∧
        (∀ g cg, gps = some g → c.2.gps = some cg →
          d g cg ≤ DUPLICATE_RADIUS_METERS)) ∧
    (dup_scan d gps
        (find_recent_zone_sightings st zone DUPLICATE_WINDOW_MINUTES now) = none →
      ∀ c ∈ find_recent_zone_sightings st zone DUPLICATE_WINDOW_MINUTES now,
        ∃ g cg, gps = some g ∧ c.2.gps = some cg ∧
          DUPLICATE_RADIUS_METERS < d g cg) ∧
    (∀ uid username description sid,
      ¬ MAX_REPORTS_PER_HOUR ≤ count_reports_since st uid (now - 3600) →
      (∀ c, dup_scan d gps
          (find_recent_zone_sightings st zone DUPLICATE_WINDOW_MINUTES now) = some c →
        handle_report_confirm d env st uid username zone gps description sid now
          = (st, some (ReportResult.duplicate c))) ∧
      (dup_scan d gps
          (find_recent_zone_sightings st zone DUPLICATE_WINDOW_MINUTES now) = none →
        st.sightings.any (fun p => p.1 == sid) = false →
        (handle_report_confirm d env st uid username zone gps description sid now).2
          = some (ReportResult.accepted sid))) := by
  refine ⟨?_, ?_, fun hg => hg ▸ dup_scan_no_gps d _,
    fun c => dup_scan_some d gps _ c, dup_scan_none d gps _, ?_⟩
  · intro p
    unfold find_recent_zone_sightings
    rw [List.Perm.mem_iff (List.perm_insertionSort _ _)]
    simp [List.mem_filter, and_assoc]
  · unfold find_recent_zone_sightings
    haveI : IsTotal (String × Sighting)
        (fun a b => b.2.reported_at ≤ a.2.reported_at) := ⟨fun _ _ => le_total _ _⟩
    haveI : IsTrans (String × Sighting)
        (fun a b => b.2.reported_at ≤ a.2.reported_at) :=
      ⟨fun _ _ _ hab hbc => le_trans hbc hab⟩
    exact List.sorted_insertionSort _ _
  · intro uid username description sid hrate
    constructor
    · intro c hc
      unfold handle_report_confirm
      rw [if_neg hrate, hc]
    · intro hnone hfresh
      unfold handle_report_confirm
      rw [if_neg hrate, hnone]
      have hfresh2 : ((increment_report_count (ensure_user st uid username) uid).1.sightings.any
          (fun p => p.1 == sid)) = false := by
        rw [sightings_increment_report_count, sightings_ensure_user]
        exact hfresh
      simp only [add_sighting, hfresh2, Bool.false_eq_true, if_false]

/-! ### Rate limiting (C5) -/

/-- The retry formula as the claim words it: `(oldest + 1h − now)` rounded
up to whole minutes, floored to a minimum wait of one minute.  Stated from
the spec for comparison with the code's computation. -/
def claimed_retry_minutes (oldest now : Int) : Int :=
  max 1 ⌈((oldest + 3600 - now : Int) : ℚ) / 60⌉

/-- C5 counterexample: three reports in the trailing hour, the oldest 58
minutes old, so the true wait is exactly 120 seconds.  The code computes
`max(1, int(120/60) + 1) = 3` minutes, while the claim's "rounded up"
formula gives 2 — the claimed equality fails at exact whole-minute
boundaries. -/
theorem rate_limit_retry_counterexample :
    (handle_report_confirm dZero envAll stRate 1 "alice" "Bugis" none none "s9" 3600).2
      = some (ReportResult.rateLimited 3) ∧
    claimed_retry_minutes 120 3600 = 2 ∧
    get_oldest_report_since stRate 1 (3600 - 3600) = some 120 ∧
    (3 : Nat) ≠ 2 := by
  refine ⟨by decide, ?_, by decide, by decide⟩
  unfold claimed_retry_minutes
  norm_num

/-- C5 (amended): a report is rejected exactly when the reporter's count in
the trailing hour is at least the configured maximum (so the max-th report
is accepted and the (max+1)-th rejected), and the rejection's wait equals
`(oldest-in-window + 1h − now)` in seconds, divided by 60 rounding DOWN and
then incremented by one minute, floored at one minute — which agrees with
rounding up except at exact whole-minute boundaries, where it is one minute
more. -/
theorem rate_limiter_spec (d : ℚ × ℚ → ℚ × ℚ → ℚ) (env : BroadcastEnv)
    (st : DBState) (uid : Int) (username zone : String) (gps : Option (ℚ × ℚ))
    (description : Option String) (sid : String) (now : Int) :
    ((∃ w, (handle_report_confirm d env st uid username zone gps description sid now).2
        = some (ReportResult.rateLimited w)) ↔
      MAX_REPORTS_PER_HOUR ≤ count_reports_since st uid (now - 3600)) ∧
    (∀ oldest, MAX_REPORTS_PER_HOUR ≤ count_reports_since st uid (now - 3600) →
      get_oldest_report_since st uid (now - 3600) = some oldest →
      handle_report_confirm d env st uid username zone gps description sid now
        = (st, some (ReportResult.rateLimited
            (max 1 ((oldest + 3600 - now).toNat / 60 + 1))))) ∧
    ((handle_report_confirm dZero envAll stTwo 1 "alice" "Bugis" none none "s3" 340).2
      = some (ReportResult.accepted "s3")) ∧
    ((handle_report_confirm dZero envAll stRate 1 "alice" "Bugis" none none "s9" 3600).2
      = some (ReportResult.rateLimited 3)) := by
  have hlimited : ∀ oldest,
      MAX_REPORTS_PER_HOUR ≤ count_reports_since st uid (now - 3600) →
      get_oldest_report_since st uid (now - 3600) = some oldest →
      handle_report_confirm d env st uid username zone gps description sid now
        = (st, some (ReportResult.rateLimited
            (max 1 ((oldest + 3600 - now).toNat / 60 + 1)))) := by
    intro oldest hcnt hold
    unfold handle_report_confirm
    rw [if_pos hcnt, hold]
  refine ⟨?_, hlimited, by decide, by decide⟩
  constructor
  · rintro ⟨w, hw⟩
    by_contra hcnt
    unfold handle_report_confirm at hw
    rw [if_neg hcnt] at hw
    cases hdup : dup_scan d gps
        (find_recent_zone_sightings st zone DUPLICATE_WINDOW_MINUTES now) with
    | some c => rw [hdup] at hw; simp at hw
    | none =>
      rw [hdup] at hw
      simp only [] at hw
      split at hw <;> simp at hw
  · intro hcnt
    cases hold : get_oldest_report_since st uid (now - 3600) with
    | some oldest => exact ⟨_, by rw [hlimited oldest hcnt hold]⟩
    | none =>
      refine ⟨max 1 ((3600 : Int).toNat / 60 + 1), ?_⟩
      unfold handle_report_confirm
      rw [if_pos hcnt, hold]

/-! ### Broadcast lemmas (C6) -/

theorem length_filter_partition {α : Type} (p : α → Bool) (l : List α) :
    (l.filter p).length + (l.filter (fun x => !(p x))).length = l.length := by
  induction l with
  | nil => simp
  | cons a rest ih =>
    by_cases ha : p a
    · simp only [List.filter_cons]
      rw [if_pos (by simp [ha]), if_neg (by simp [ha])]
      simp only [List.length_cons]
      omega
    · simp only [List.filter_cons]
      rw [if_neg (by simp [ha]), if_pos (by simp [ha])]
      simp only [List.length_cons]
      omega

/-- Closed form of the per-recipient delivery loop of `broadcast_alert`. -/
theorem broadcast_loop (env : BroadcastEnv) (reporter_id : Int) :
    ∀ (subs : List Int) (acc : BroadcastStats),
      subs.foldl (fun acc uid =>
        if uid == reporter_id then acc
        else
          match env.send uid with
          | SendOutcome.delivered => { acc with sent := acc.sent + 1 }
          | SendOutcome.forbidden =>
              { acc with blocked := acc.blocked ++ [uid], failed := acc.failed + 1 }
          | SendOutcome.otherError => { acc with failed := acc.failed + 1 }) acc
      = ⟨acc.sent + (((subs.filter (fun uid => !(uid == reporter_id))).filter
            (fun uid => env.send uid == SendOutcome.delivered)).length),
         acc.failed + (((subs.filter (fun uid => !(uid == reporter_id))).filter
            (fun uid => !(env.send uid == SendOutcome.delivered))).length),
         acc.blocked ++ ((subs.filter (fun uid => !(uid == reporter_id))).filter
            (fun uid => env.send uid == SendOutcome.forbidden))⟩ := by
  intro subs
  induction subs with
  | nil => intro acc; simp
  | cons a rest ih =>
    intro acc
    simp only [List.foldl_cons, List.filter_cons]
    by_cases ha : a = reporter_id
    · rw [if_pos (by simpa using ha)]
      rw [show (!(a == reporter_id)) = false by simp [ha]]
      simp only [Bool.false_eq_true, if_false]
      exact ih acc
    · rw [if_neg (by simpa using ha)]
      rw [show (!(a == reporter_id)) = true by simp [ha]]
      simp only [if_true, List.filter_cons]
      cases hs : env.send a with
      | delivered =>
        simp only []
        rw [ih]
        simp [hs]
        omega
      | forbidden =>
        simp only []
        rw [ih]
        simp [hs]
        omega
      | otherError =>
        simp only []
        rw [ih]
        simp [hs]
        omega

theorem mem_clear_subscriptions (st : DBState) (b u : Int) (z : String) :
    (u, z) ∈ (clear_subscriptions st b).subscriptions ↔
      (u, z) ∈ st.subscriptions ∧ u ≠ b := by
  unfold clear_subscriptions
  simp [List.mem_filter]

/-- Closed form of the cleanup loop of `broadcast_alert`: a subscription
survives unless its owner is a blocked recipient whose prune succeeded. -/
theorem prune_loop (env : BroadcastEnv) :
    ∀ (blocked : List Int) (st : DBState) (u : Int) (z : String),
      (u, z) ∈ (blocked.foldl (fun s uid =>
          if env.pruneOk uid then clear_subscriptions s uid else s) st).subscriptions
        ↔ ((u, z) ∈ st.subscriptions ∧ ¬(u ∈ blocked ∧ env.pruneOk u = true)) := by
  intro blocked
  induction blocked with
  | nil => intro st u z; simp
  | cons b rest ih =>
    intro st u z
    simp only [List.foldl_cons]
    by_cases hb : env.pruneOk b
    · rw [if_pos hb, ih, mem_clear_subscriptions]
      constructor
      · rintro ⟨⟨hmem, hub⟩, hrest⟩
        refine ⟨hmem, ?_⟩
        rintro ⟨hin, hok⟩
        rcases List.mem_cons.mp hin with hin | hin
        · exact hub hin
        · exact hrest ⟨hin, hok⟩
      · rintro ⟨hmem, hnot⟩
        have hub : u ≠ b := fun h =>
          hnot ⟨by rw [h]; exact List.mem_cons_self _ _, by rw [h]; exact hb⟩
        exact ⟨⟨hmem, hub⟩, fun ⟨hin, hok⟩ => hnot ⟨List.mem_cons_of_mem _ hin, hok⟩⟩
    · rw [if_neg hb, ih]
      constructor
      · rintro ⟨hmem, hrest⟩
        refine ⟨hmem, ?_⟩
        rintro ⟨hin, hok⟩
        rcases List.mem_cons.mp hin with hin | hin
        · exact hb (hin ▸ hok)
        · exact hrest ⟨hin, hok⟩
      · rintro ⟨hmem, hnot⟩
        exact ⟨hmem, fun ⟨hin, hok⟩ => hnot ⟨List.mem_cons_of_mem _ hin, hok⟩⟩

/-- C6: delivery is attempted once for each zone subscriber except the
reporter; the aggregate counts classify the outcomes (`Forbidden`
recipients are recorded and their subscriptions cleared afterwards, other
failures only counted); prune failures leave the subscription in place; the
counts and blocked list are independent of the prune outcomes, and the
caller always receives the aggregate triple — no per-recipient exception
escapes. -/
theorem broadcast_alert_spec (env : BroadcastEnv) (st : DBState) (zone : String)
    (reporter_id : Int) :
    ((broadcast_alert env st zone reporter_id).2.sent
      = (((get_zone_subscribers st zone).filter
            (fun uid => !(uid == reporter_id))).filter
          (fun uid => env.send uid == SendOutcome.delivered)).length) ∧
    ((broadcast_alert env st zone reporter_id).2.failed
      = (((get_zone_subscribers st zone).filter
            (fun uid => !(uid == reporter_id))).filter
          (fun uid => !(env.send uid == SendOutcome.delivered))).length) ∧
    ((broadcast_alert env st zone reporter_id).2.blocked
      = ((get_zone_subscribers st zone).filter
            (fun uid => !(uid == reporter_id))).filter
          (fun uid => env.send uid == SendOutcome.forbidden)) ∧
    ((broadcast_alert env st zone reporter_id).2.sent
        + (broadcast_alert env st zone reporter_id).2.failed
      = ((get_zone_subscribers st zone).filter
          (fun uid => !(uid == reporter_id))).length) ∧
    (∀ u z', (u, z') ∈ (broadcast_alert env st zone reporter_id).1.subscriptions ↔
      ((u, z') ∈ st.subscriptions ∧
        ¬(u ∈ (broadcast_alert env st zone reporter_id).2.blocked ∧
          env.pruneOk u = true))) ∧
    (∀ pruneOk2 : Int → Bool,
      (broadcast_alert ⟨env.send, pruneOk2⟩ st zone reporter_id).2
        = (broadcast_alert env st zone reporter_id).2) := by
  have hstats : ∀ e : BroadcastEnv, (broadcast_alert e st zone reporter_id).2
      = ⟨(((get_zone_subscribers st zone).filter
            (fun uid => !(uid == reporter_id))).filter
          (fun uid => e.send uid == SendOutcome.delivered)).length,
         (((get_zone_subscribers st zone).filter
            (fun uid => !(uid == reporter_id))).filter
          (fun uid => !(e.send uid == SendOutcome.delivered))).length,
         ((get_zone_subscribers st zone).filter
            (fun uid => !(uid == reporter_id))).filter
          (fun uid => e.send uid == SendOutcome.forbidden)⟩ := by
    intro e
    show ((get_zone_subscribers st zone).foldl (fun (acc : BroadcastStats) (uid : Int) =>
        if uid == reporter_id then acc
        else
          match e.send uid with
          | SendOutcome.delivered => { acc with sent := acc.sent + 1 }
          | SendOutcome.forbidden =>
              { acc with blocked := acc.blocked ++ [uid], failed := acc.failed + 1 }
          | SendOutcome.otherError => { acc with failed := acc.failed + 1 })
      (⟨0, 0, []⟩ : BroadcastStats)) = _
    rw [broadcast_loop e reporter_id]
    simp
  refine ⟨?_, ?_, ?_, ?_, ?_, ?_⟩
  · rw [hstats env]
  · rw [hstats env]
  · rw [hstats env]
  · rw [hstats env]
    exact length_filter_partition _ _
  · intro u z'
    have hsub : (broadcast_alert env st zone reporter_id).1
        = ((broadcast_alert env st zone reporter_id).2.blocked).foldl
            (fun s uid => if env.pruneOk uid then clear_subscriptions s uid else s) st := rfl
    rw [hsub, prune_loop env _ st u z']
  · intro pruneOk2
    rw [hstats ⟨env.send, pruneOk2⟩, hstats env]

/-! ### Vote-counting lemmas (C1) -/

theorem countVotes_nil (sid : String) (v : Vote) : countVotes [] sid v = 0 := rfl

theorem countVotes_cons (e : String × Int × Vote) (fb : List (String × Int × Vote))
    (sid : String) (v : Vote) :
    countVotes (e :: fb) sid v
      = countVotes fb sid v + (if e.1 = sid ∧ e.2.2 = v then 1 else 0) := by
  unfold countVotes
  by_cases h : e.1 = sid ∧ e.2.2 = v
  · rw [List.filter_cons_of_pos (by simp [h.1, h.2]), if_pos h]
    simp only [List.length_cons]
    push_cast
    ring
  · rw [List.filter_cons_of_neg (by simpa using h), if_neg h]
    simp

theorem countVotes_append_one (fb : List (String × Int × Vote))
    (e : String × Int × Vote) (sid : String) (v : Vote) :
    countVotes (fb ++ [e]) sid v
      = countVotes fb sid v + (if e.1 = sid ∧ e.2.2 = v then 1 else 0) := by
  induction fb with
  | nil => simp [countVotes_nil, countVotes_cons]
  | cons a rest ih =>
    rw [List.cons_append, countVotes_cons, countVotes_cons, ih]
    omega

theorem not_mem_voteKey_of_find?_none (fb : List (String × Int × Vote))
    (sid : String) (uid : Int)
    (h : fb.find? (fun e => e.1 == sid && e.2.1 == uid) = none) :
    (sid, uid) ∉ fb.map voteKey := by
  intro hmem
  rw [List.find?_eq_none] at h
  obtain ⟨e, he, hk⟩ := List.mem_map.mp hmem
  apply h e he
  unfold voteKey at hk
  have h1 : e.1 = sid := congrArg Prod.fst hk
  have h2 : e.2.1 = uid := congrArg Prod.snd hk
  simp [h1, h2]

theorem voteKey_map_upsert (fb : List (String × Int × Vote)) (sid : String)
    (uid : Int) (v : Vote) :
    (fb.map (fun e => if e.1 == sid && e.2.1 == uid then (sid, uid, v) else e)).map voteKey
      = fb.map voteKey := by
  rw [List.map_map]
  apply List.map_congr_left
  intro e _
  by_cases he : e.1 = sid ∧ e.2.1 = uid
  · simp only [Function.comp]
    rw [if_pos (by simp [he.1, he.2])]
    unfold voteKey
    simp [he.1, he.2]
  · simp only [Function.comp]
    rw [if_neg (by simpa using he)]

/-- The effect of the vote upsert on the per-sighting counts when a previous
vote row exists. -/
theorem countVotes_upsert_update (sid : String) (uid : Int) (v : Vote) :
    ∀ (fb : List (String × Int × Vote)) (e₀ : String × Int × Vote),
      (fb.map voteKey).Nodup →
      fb.find? (fun e => e.1 == sid && e.2.1 == uid) = some e₀ →
      ∀ (k : String) (vk : Vote),
        countVotes (fb.map (fun e =>
            if e.1 == sid && e.2.1 == uid then (sid, uid, v) else e)) k vk
          = countVotes fb k vk
            + (if sid = k ∧ v = vk then 1 else 0)
            - (if sid = k ∧ e₀.2.2 = vk then 1 else 0) := by
  intro fb
  induction fb with
  | nil => intro e₀ _ hfind; simp at hfind
  | cons a rest ih =>
    intro e₀ hnd hfind k vk
    by_cases ha : a.1 = sid ∧ a.2.1 = uid
    · have hfa : (fun e : String × Int × Vote => e.1 == sid && e.2.1 == uid) a = true := by
        simp [ha.1, ha.2]
      rw [List.find?_cons_of_pos (p := fun e : String × Int × Vote =>
        e.1 == sid && e.2.1 == uid) _ hfa] at hfind
      cases hfind
      have hrest : rest.map (fun e =>
          if e.1 == sid && e.2.1 == uid then (sid, uid, v) else e) = rest := by
        have hid : rest.map (fun e =>
            if e.1 == sid && e.2.1 == uid then (sid, uid, v) else e) = rest.map id := by
          apply List.map_congr_left
          intro e he
          show (if e.1 == sid && e.2.1 == uid then (sid, uid, v) else e) = e
          have hkey : voteKey e ≠ (sid, uid) := by
            intro hk
            have hmem : voteKey a ∈ rest.map voteKey := by
              rw [show voteKey a = (sid, uid) by unfold voteKey; rw [ha.1, ha.2]]
              rw [← hk]
              exact List.mem_map_of_mem voteKey he
            rw [List.map_cons] at hnd
            exact (List.nodup_cons.mp hnd).1 hmem
          rw [if_neg]
          intro hpred
          apply hkey
          simp only [Bool.and_eq_true, beq_iff_eq] at hpred
          unfold voteKey
          rw [hpred.1, hpred.2]
        simpa using hid
      rw [List.map_cons, if_pos hfa, hrest]
      rw [countVotes_cons, countVotes_cons]
      simp only [ha.1]
      rw [if_congr (show ((sid, uid, v).1 = k ∧ (sid, uid, v).2.2 = vk) ↔ (sid = k ∧ v = vk)
        by simp) rfl rfl]
      split_ifs <;> omega
    · have hfa : (fun e : String × Int × Vote => e.1 == sid && e.2.1 == uid) a = false := by
        rcases not_and_or.mp ha with h | h <;> simp [h]
      rw [List.find?_cons_of_neg (p := fun e : String × Int × Vote =>
        e.1 == sid && e.2.1 == uid) _ (by simp [hfa])] at hfind
      rw [List.map_cons, if_neg (by simp [hfa])]
      rw [countVotes_cons, countVotes_cons]
      have hnd' : (rest.map voteKey).Nodup := by
        rw [List.map_cons] at hnd
        exact (List.nodup_cons.mp hnd).2
      rw [ih e₀ hnd' hfind k vk]
      omega

/-- Non-zero counts for a sighting id force a vote row with that id. -/
theorem exists_vote_of_countVotes_ne_zero (fb : List (String × Int × Vote))
    (sid : String) (v : Vote) (h : countVotes fb sid v ≠ 0) :
    ∃ e ∈ fb, e.1 = sid := by
  unfold countVotes at h
  cases hf : fb.filter (fun e => e.1 == sid && e.2.2 == v) with
  | nil => rw [hf] at h; simp at h
  | cons e rest =>
    have he : e ∈ fb.filter (fun e => e.1 == sid && e.2.2 == v) := by
      rw [hf]
      exact List.mem_cons_self _ _
    have := List.mem_filter.mp he
    refine ⟨e, this.1, ?_⟩
    have := this.2
    simp only [Bool.and_eq_true, beq_iff_eq] at this
    exact this.1

/-! ### Invariant preservation (C1) -/

/-- The invariant only reads the sightings and feedback tables. -/
theorem Inv_of_fields {st st' : DBState} (h : Inv st)
    (hs : st'.sightings = st.sightings) (hf : st'.feedback = st.feedback) :
    Inv st' := by
  unfold Inv at h ⊢
  rw [hs, hf]
  exact h

theorem feedback_ensure_user (st : DBState) (uid : Int) (username : String) :
    (ensure_user st uid username).feedback = st.feedback := by
  unfold ensure_user
  split <;> rfl

theorem feedback_increment_report_count (st : DBState) (uid : Int) :
    (increment_report_count st uid).1.feedback = st.feedback := by
  simp only [increment_report_count]
  split <;> rfl

theorem prune_fields (env : BroadcastEnv) :
    ∀ (l : List Int) (st : DBState),
      ((l.foldl (fun s uid =>
        if env.pruneOk uid then clear_subscriptions s uid else s) st).sightings
          = st.sightings) ∧
      ((l.foldl (fun s uid =>
        if env.pruneOk uid then clear_subscriptions s uid else s) st).feedback
          = st.feedback) := by
  intro l
  induction l with
  | nil => intro st; exact ⟨rfl, rfl⟩
  | cons b rest ih =>
    intro st
    simp only [List.foldl_cons]
    by_cases hb : env.pruneOk b
    · rw [if_pos hb]
      exact ih (clear_subscriptions st b)
    · rw [if_neg hb]
      exact ih st

theorem broadcast_fields (env : BroadcastEnv) (st : DBState) (zone : String)
    (reporter_id : Int) :
    ((broadcast_alert env st zone reporter_id).1.sightings = st.sightings) ∧
    ((broadcast_alert env st zone reporter_id).1.feedback = st.feedback) := by
  have hsub : (broadcast_alert env st zone reporter_id).1
      = ((broadcast_alert env st zone reporter_id).2.blocked).foldl
          (fun s uid => if env.pruneOk uid then clear_subscriptions s uid else s) st := rfl
  rw [hsub]
  exact prune_fields env _ st

theorem exists_row_of_lookup (st : DBState) (sid : String) (s : Sighting)
    (h : lookupSighting st sid = some s) : ∃ p ∈ st.sightings, p.1 = sid := by
  unfold lookupSighting at h
  cases hf : st.sightings.find? (fun p => p.1 == sid) with
  | none => rw [hf] at h; simp at h
  | some p =>
    have hm := List.mem_of_find?_eq_some hf
    have hp := List.find?_some hf
    exact ⟨p, hm, by simpa using hp⟩

theorem get_user_feedback_none_iff (st : DBState) (sid : String) (uid : Int) :
    get_user_feedback st sid uid = none ↔
      st.feedback.find? (fun e => e.1 == sid && e.2.1 == uid) = none := by
  unfold get_user_feedback
  constructor
  · intro hm
    cases h : st.feedback.find? (fun e => e.1 == sid && e.2.1 == uid) with
    | none => rfl
    | some e => rw [h] at hm; simp at hm
  · intro h
    rw [h]
    rfl

theorem get_user_feedback_some (st : DBState) (sid : String) (uid : Int) (w : Vote)
    (h : get_user_feedback st sid uid = some w) :
    ∃ e₀, st.feedback.find? (fun e => e.1 == sid && e.2.1 == uid) = some e₀ ∧
      e₀.2.2 = w := by
  unfold get_user_feedback at h
  cases hf : st.feedback.find? (fun e => e.1 == sid && e.2.1 == uid) with
  | none => rw [hf] at h; simp at h
  | some e₀ =>
    rw [hf] at h
    simp at h
    exact ⟨e₀, rfl, h⟩

theorem set_feedback_append (st : DBState) (sid : String) (uid : Int) (v : Vote)
    (h : st.feedback.find? (fun e => e.1 == sid && e.2.1 == uid) = none) :
    (set_feedback st sid uid v).feedback = st.feedback ++ [(sid, uid, v)] := by
  unfold set_feedback
  rw [if_neg]
  intro hany
  rw [List.any_eq_true] at hany
  obtain ⟨e, he, hp⟩ := hany
  rw [List.find?_eq_none] at h
  exact absurd hp (by simpa using h e he)

theorem set_feedback_update (st : DBState) (sid : String) (uid : Int) (v : Vote)
    (e₀ : String × Int × Vote)
    (h : st.feedback.find? (fun e => e.1 == sid && e.2.1 == uid) = some e₀) :
    (set_feedback st sid uid v).feedback
      = st.feedback.map (fun e =>
          if e.1 == sid && e.2.1 == uid then (sid, uid, v) else e) := by
  unfold set_feedback
  rw [if_pos]
  rw [List.any_eq_true]
  refine ⟨e₀, List.mem_of_find?_eq_some h, ?_⟩
  have hp := List.find?_some h
  simpa using hp

theorem exists_key_map_upd {β : Type} (l : List (String × β)) (tgt x : String)
    (g : β → β) :
    (∃ p ∈ l.map (fun p => if p.1 == tgt then (p.1, g p.2) else p), p.1 = x)
      ↔ (∃ p ∈ l, p.1 = x) := by
  constructor
  · rintro ⟨p', hp', hx⟩
    obtain ⟨p, hp, hep⟩ := List.mem_map.mp hp'
    have hkey : p'.1 = p.1 := by
      rw [← hep]
      by_cases h : (p.1 == tgt) = true
      · rw [if_pos h]
      · rw [if_neg h]
    exact ⟨p, hp, by rw [← hkey]; exact hx⟩
  · rintro ⟨p, hp, hx⟩
    refine ⟨(if p.1 == tgt then (p.1, g p.2) else p),
      List.mem_map_of_mem _ hp, ?_⟩
    by_cases h : (p.1 == tgt) = true
    · rw [if_pos h]
      exact hx
    · rw [if_neg h]
      exact hx

/-- Applying a non-duplicate vote preserves the ledger invariant. -/
theorem Inv_apply_feedback (st : DBState) (sid : String) (uid : Int) (v : Vote)
    (hInv : Inv st) (s : Sighting) (hs : lookupSighting st sid = some s)
    (hv : get_user_feedback st sid uid ≠ some v) :
    Inv (update_feedback_counts (set_feedback st sid uid v) sid
      (vote_deltas (get_user_feedback st sid uid) v).1
      (vote_deltas (get_user_feedback st sid uid) v).2) := by
  obtain ⟨hnd, hFK, hcnt⟩ := hInv
  have hsrow := exists_row_of_lookup st sid s hs
  have hsightings : ∀ dp dn : Int,
      (update_feedback_counts (set_feedback st sid uid v) sid dp dn).sightings
        = st.sightings.map (fun p =>
            if p.1 == sid then (p.1, addDeltas dp dn p.2) else p) := by
    intro dp dn
    show ((set_feedback st sid uid v).sightings.map _) = _
    rw [sightings_set_feedback]
  have hfeedback : ∀ dp dn : Int,
      (update_feedback_counts (set_feedback st sid uid v) sid dp dn).feedback
        = (set_feedback st sid uid v).feedback := fun _ _ => rfl
  cases hprev : get_user_feedback st sid uid with
  | none =>
    have hfindn := (get_user_feedback_none_iff st sid uid).mp hprev
    have hfb : (set_feedback st sid uid v).feedback = st.feedback ++ [(sid, uid, v)] :=
      set_feedback_append st sid uid v hfindn
    refine ⟨?_, ?_, ?_⟩
    · rw [hfeedback, hfb, List.map_append]
      refine List.nodup_append.mpr ⟨hnd, by simp, ?_⟩
      intro a ha hb
      simp only [List.map_cons, List.map_nil, List.mem_cons,
        List.not_mem_nil, or_false] at hb
      have hbk : a = (sid, uid) := by
        rw [hb]
        rfl
      rw [hbk] at ha
      exact not_mem_voteKey_of_find?_none st.feedback sid uid hfindn ha
    · intro e he
      rw [hfeedback, hfb] at he
      rw [hsightings]
      rcases List.mem_append.mp he with he | he
      · exact (exists_key_map_upd st.sightings sid e.1 _).mpr (hFK e he)
      · simp only [List.mem_singleton] at he
        rw [he]
        exact (exists_key_map_upd st.sightings sid sid _).mpr hsrow
    · intro p' hp'
      rw [hsightings] at hp'
      obtain ⟨p, hp, hpe⟩ := List.mem_map.mp hp'
      rw [hfeedback, hfb]
      have hcp := hcnt p hp
      by_cases hps : (p.1 == sid) = true
      · rw [if_pos hps] at hpe
        have hps' : p.1 = sid := by simpa using hps
        rw [← hpe]
        simp only []
        rw [countVotes_append_one, countVotes_append_one]
        rw [if_congr (show ((sid, uid, v).1 = p.1 ∧ (sid, uid, v).2.2 = Vote.positive)
            ↔ (sid = p.1 ∧ v = Vote.positive) by simp) rfl rfl,
          if_congr (show ((sid, uid, v).1 = p.1 ∧ (sid, uid, v).2.2 = Vote.negative)
            ↔ (sid = p.1 ∧ v = Vote.negative) by simp) rfl rfl]
        cases v <;>
          simp [vote_deltas, addDeltas, hps'.symm, hcp.1, hcp.2]
      · rw [if_neg hps] at hpe
        rw [← hpe]
        rw [countVotes_append_one, countVotes_append_one]
        have hns : ¬ sid = p.1 := by
          intro h
          exact hps (by simp [h.symm])
        rw [if_neg (by simp [hns] : ¬ ((sid, uid, v).1 = p.1 ∧
            (sid, uid, v).2.2 = Vote.positive)),
          if_neg (by simp [hns] : ¬ ((sid, uid, v).1 = p.1 ∧
            (sid, uid, v).2.2 = Vote.negative))]
        simpa using hcp
  | some w =>
    obtain ⟨e₀, hfind, he₀⟩ := get_user_feedback_some st sid uid w hprev
    have hwv : w ≠ v := fun h => hv (by rw [hprev, h])
    have hfb : (set_feedback st sid uid v).feedback
        = st.feedback.map (fun e =>
            if e.1 == sid && e.2.1 == uid then (sid, uid, v) else e) :=
      set_feedback_update st sid uid v e₀ hfind
    refine ⟨?_, ?_, ?_⟩
    · rw [hfeedback, hfb, voteKey_map_upsert]
      exact hnd
    · intro e' he'
      rw [hfeedback, hfb] at he'
      rw [hsightings]
      obtain ⟨e, he, hee⟩ := List.mem_map.mp he'
      by_cases hpe : (e.1 == sid && e.2.1 == uid) = true
      · rw [if_pos hpe] at hee
        rw [← hee]
        exact (exists_key_map_upd st.sightings sid sid _).mpr hsrow
      · rw [if_neg hpe] at hee
        rw [← hee]
        exact (exists_key_map_upd st.sightings sid e.1 _).mpr (hFK e he)
    · intro p' hp'
      rw [hsightings] at hp'
      obtain ⟨p, hp, hpe⟩ := List.mem_map.mp hp'
      rw [hfeedback, hfb]
      have hcp := hcnt p hp
      have hcount := countVotes_upsert_update sid uid v st.feedback e₀ hnd hfind
      by_cases hps : (p.1 == sid) = true
      · rw [if_pos hps] at hpe
        have hps' : p.1 = sid := by simpa using hps
        rw [← hpe]
        simp only []
        rw [hcount p.1 Vote.positive, hcount p.1 Vote.negative, he₀]
        cases w <;> cases v <;> first
          | exact absurd rfl hwv
          | (simp [vote_deltas, addDeltas, hps'.symm, hcp.1, hcp.2]
             try omega)
      · rw [if_neg hps] at hpe
        rw [← hpe]
        rw [hcount p.1 Vote.positive, hcount p.1 Vote.negative, he₀]
        have hns : ¬ sid = p.1 := by
          intro h
          exact hps (by simp [h.symm])
        rw [if_neg (by simp [hns] : ¬ (sid = p.1 ∧ v = Vote.positive)),
          if_neg (by simp [hns] : ¬ (sid = p.1 ∧ w = Vote.positive)),
          if_neg (by simp [hns] : ¬ (sid = p.1 ∧ v = Vote.negative)),
          if_neg (by simp [hns] : ¬ (sid = p.1 ∧ w = Vote.negative))]
        simpa using hcp

theorem Inv_flag_sighting (st : DBState) (sid : String) (h : Inv st) :
    Inv (flag_sighting st sid) := by
  obtain ⟨hnd, hFK, hcnt⟩ := h
  refine ⟨hnd, ?_, ?_⟩
  · intro e he
    show ∃ p ∈ st.sightings.map
      (fun p => if p.1 == sid then (p.1, setFlagged p.2) else p), p.1 = e.1
    exact (exists_key_map_upd st.sightings sid e.1 setFlagged).mpr (hFK e he)
  · intro p' hp'
    obtain ⟨p, hp, hpe⟩ := List.mem_map.mp hp'
    have hcp := hcnt p hp
    by_cases hps : (p.1 == sid) = true
    · rw [if_pos hps] at hpe
      rw [← hpe]
      simpa [setFlagged] using hcp
    · rw [if_neg hps] at hpe
      rw [← hpe]
      exact hcp

theorem Inv_check_auto_flag (st : DBState) (sid : String) (h : Inv st) :
    Inv (check_auto_flag st sid) := by
  cases hs : lookupSighting st sid with
  | none =>
    rw [check_auto_flag_none st sid hs]
    exact h
  | some s =>
    rw [check_auto_flag_eq_ite st sid s hs]
    by_cases hc : autoFlagCond s
    · rw [if_pos hc]
      exact Inv_flag_sighting st sid h
    · rw [if_neg hc]
      exact h

theorem Inv_add_sighting (st : DBState) (sid : String) (s : Sighting)
    (hInv : Inv st) (hz : s.feedback_positive = 0) (hn : s.feedback_negative = 0)
    (st' : DBState) (h : add_sighting st sid s = some st') : Inv st' := by
  unfold add_sighting at h
  by_cases hany : (st.sightings.any (fun p => p.1 == sid)) = true
  · rw [if_pos hany] at h
    cases h
  · rw [if_neg hany] at h
    cases h
    obtain ⟨hnd, hFK, hcnt⟩ := hInv
    refine ⟨hnd, ?_, ?_⟩
    · intro e he
      obtain ⟨p, hp, hpe⟩ := hFK e he
      exact ⟨p, List.mem_append_left _ hp, hpe⟩
    · intro p hp
      rcases List.mem_append.mp hp with hp | hp
      · exact hcnt p hp
      · simp only [List.mem_singleton] at hp
        subst hp
        have hzero : ∀ vk : Vote, countVotes st.feedback sid vk = 0 := by
          intro vk
          by_contra hne
          obtain ⟨e, he, hesid⟩ :=
            exists_vote_of_countVotes_ne_zero st.feedback sid vk hne
          obtain ⟨q, hq, hq1⟩ := hFK e he
          exact hany (List.any_eq_true.mpr ⟨q, hq, by simp [hq1, hesid]⟩)
        refine ⟨?_, ?_⟩
        · rw [hzero Vote.positive]
          exact hz
        · rw [hzero Vote.negative]
          exact hn

theorem Inv_handle_report (d : ℚ × ℚ → ℚ × ℚ → ℚ) (env : BroadcastEnv)
    (st : DBState) (uid : Int) (username zone : String) (gps : Option (ℚ × ℚ))
    (description : Option String) (sid : String) (now : Int) (hInv : Inv st) :
    Inv (handle_report_confirm d env st uid username zone gps description sid now).1 := by
  unfold handle_report_confirm
  by_cases hrate : MAX_REPORTS_PER_HOUR ≤ count_reports_since st uid (now - 3600)
  · rw [if_pos hrate]
    exact hInv
  · rw [if_neg hrate]
    cases hdup : dup_scan d gps
        (find_recent_zone_sightings st zone DUPLICATE_WINDOW_MINUTES now) with
    | some c =>
      exact hInv
    | none =>
      have h1 : Inv (increment_report_count (ensure_user st uid username) uid).1 :=
        Inv_of_fields hInv
          (by rw [sightings_increment_report_count, sightings_ensure_user])
          (by rw [feedback_increment_report_count, feedback_ensure_user])
      simp only []
      split
      · exact h1
      · rename_i st3 hadd
        have h3 : Inv st3 := Inv_add_sighting _ sid _ h1 rfl rfl st3 hadd
        exact Inv_of_fields h3 (broadcast_fields env st3 zone uid).1
          (broadcast_fields env st3 zone uid).2

theorem Inv_handle_feedback (st : DBState) (sid : String) (uid : Int)
    (isp : Bool) (now : Int) (st' : DBState) (r : FeedbackResult)
    (hInv : Inv st) (h : handle_feedback st sid uid isp now = Except.ok (st', r)) :
    Inv st' := by
  cases hl : lookupSighting st sid with
  | none =>
    rw [handle_feedback_notFound st sid uid isp now hl] at h
    simp only [Except.ok.injEq, Prod.mk.injEq] at h
    rw [← h.1]
    exact hInv
  | some s =>
    by_cases hrep : s.reporter_id = uid
    · rw [handle_feedback_selfVote st sid uid isp now s hl hrep] at h
      simp only [Except.ok.injEq, Prod.mk.injEq] at h
      rw [← h.1]
      exact hInv
    · by_cases hw : FEEDBACK_WINDOW_HOURS * 3600 < now - s.reported_at
      · rw [handle_feedback_windowClosed st sid uid isp now s hl hrep hw] at h
        simp only [Except.ok.injEq, Prod.mk.injEq] at h
        rw [← h.1]
        exact hInv
      · by_cases hv : get_user_feedback st sid uid
            = some (if isp then Vote.positive else Vote.negative)
        · rw [handle_feedback_dupVote st sid uid isp now s hl hrep hw hv] at h
          simp only [Except.ok.injEq, Prod.mk.injEq] at h
          rw [← h.1]
          exact hInv
        · rw [handle_feedback_updated st sid uid isp now s hl hrep hw hv] at h
          simp only [Except.ok.injEq, Prod.mk.injEq] at h
          rw [← h.1]
          exact Inv_check_auto_flag _ sid
            (Inv_apply_feedback st sid uid _ ⟨hInv.1, hInv.2.1, hInv.2.2⟩ s hl hv)

theorem Inv_step (d : ℚ × ℚ → ℚ × ℚ → ℚ) (st : DBState) (op : Op) (h : Inv st) :
    Inv (step d st op) := by
  cases op with
  | report env uid username zone gps description sid now =>
    exact Inv_handle_report d env st uid username zone gps description sid now h
  | vote sid uid isp now =>
    show Inv (match handle_feedback st sid uid isp now with
      | Except.ok r => r.1
      | Except.error _ => st)
    cases hh : handle_feedback st sid uid isp now with
    | ok r => exact Inv_handle_feedback st sid uid isp now r.1 r.2 h (by rw [hh])
    | error e => exact h

theorem Inv_runOps (d : ℚ × ℚ → ℚ × ℚ → ℚ) :
    ∀ (ops : List Op) (st : DBState), Inv st → Inv (runOps d ops st) := by
  intro ops
  induction ops with
  | nil => intro st h; exact h
  | cons op rest ih =>
    intro st h
    exact ih _ (Inv_step d st op h)

theorem Inv_emptyDB : Inv emptyDB := by
  refine ⟨?_, ?_, ?_⟩ <;> simp [emptyDB]

/-- The pos-then-neg voting scenario: one report, then the same voter
applies 'positive' and then 'negative'. -/
def scenarioOps : List Op :=
  [Op.report envAll 1 "alice" "Bugis" none none "s1" 0,
   Op.vote "s1" 2 true 10,
   Op.vote "s1" 2 false 20]

/-! ### C9: the ban state machine -/

theorem find?_map_const_upd {α β : Type} [BEq α] [LawfulBEq α]
    (l : List (α × β)) (tgt : α) (v : α × β) (hv : (v.1 == tgt) = true) :
    (l.map (fun p => if p.1 == tgt then v else p)).find? (fun p => p.1 == tgt)
      = (l.find? (fun p => p.1 == tgt)).map (fun _ => v) := by
  induction l with
  | nil => simp
  | cons a rest ih =>
    simp only [List.map_cons]
    by_cases ha : (a.1 == tgt) = true
    · rw [if_pos ha]
      rw [List.find?_cons_of_pos (p := fun p : α × β => p.1 == tgt) _ hv,
        List.find?_cons_of_pos (p := fun p : α × β => p.1 == tgt) _ ha]
      simp
    · rw [if_neg ha]
      rw [List.find?_cons_of_neg (p := fun p : α × β => p.1 == tgt) _ (by simp [ha]),
        List.find?_cons_of_neg (p := fun p : α × β => p.1 == tgt) _ (by simp [ha])]
      exact ih

theorem find?_append_of_none {α : Type} (p : α → Bool) (l : List α) (x : α)
    (h : l.find? p = none) (hx : p x = true) :
    (l ++ [x]).find? p = some x := by
  induction l with
  | nil => simp [List.find?, hx]
  | cons a rest ih =>
    by_cases hpa : p a = true
    · rw [List.find?_cons_of_pos _ hpa] at h
      cases h
    · rw [List.find?_cons_of_neg _ (by simp [hpa])] at h
      rw [List.cons_append, List.find?_cons_of_neg _ (by simp [hpa])]
      exact ih h

/-- After `ban_user`, the ban row for the target holds exactly the new
`banned_by`/`reason` — both on a fresh ban (insert) and on re-ban
(`ON CONFLICT ... DO UPDATE`). -/
theorem clear_subscriptions_banned (st : DBState) (uid : Int) :
    (clear_subscriptions st uid).banned = st.banned := rfl

theorem banned_find_ban_user (st : DBState) (uid banned_by : Int)
    (reason : Option String) :
    (ban_user st uid banned_by reason).banned.find? (fun p => p.1 == uid)
      = some (uid, ⟨banned_by, reason⟩) := by
  simp only [ban_user, clear_subscriptions_banned]
  by_cases hb : st.banned.any (fun p : Int × BanRow => p.1 == uid) = true
  · rw [if_pos hb]
    show (st.banned.map (fun p : Int × BanRow =>
        if p.1 == uid then (uid, (⟨banned_by, reason⟩ : BanRow)) else p)).find?
      (fun p : Int × BanRow => p.1 == uid) = some (uid, (⟨banned_by, reason⟩ : BanRow))
    rw [find?_map_const_upd st.banned uid (uid, ⟨banned_by, reason⟩) (by simp)]
    obtain ⟨a, ha, hpa⟩ := List.any_eq_true.mp hb
    cases hf : st.banned.find? (fun p : Int × BanRow => p.1 == uid) with
    | none => exact absurd hpa (List.find?_eq_none.mp hf a ha)
    | some e => simp
  · rw [if_neg hb]
    show (st.banned ++ [(uid, (⟨banned_by, reason⟩ : BanRow))]).find?
      (fun p : Int × BanRow => p.1 == uid) = some (uid, (⟨banned_by, reason⟩ : BanRow))
    refine find?_append_of_none _ _ _ ?_ (by simp)
    rw [List.find?_eq_none]
    intro x hx hpx
    exact hb (List.any_eq_true.mpr ⟨x, hx, hpx⟩)

theorem is_banned_ban_user (st : DBState) (uid banned_by : Int)
    (reason : Option String) :
    is_banned (ban_user st uid banned_by reason) uid = true := by
  unfold is_banned
  refine List.any_eq_true.mpr ⟨(uid, ⟨banned_by, reason⟩), ?_, by simp⟩
  exact List.mem_of_find?_eq_some (banned_find_ban_user st uid banned_by reason)

theorem subscriptions_ban_user (st : DBState) (uid banned_by : Int)
    (reason : Option String) :
    (ban_user st uid banned_by reason).subscriptions
      = st.subscriptions.filter (fun p => !(p.1 == uid)) := by
  simp only [ban_user, clear_subscriptions_banned]
  by_cases hb : st.banned.any (fun p : Int × BanRow => p.1 == uid) = true
  · rw [if_pos hb]
    rfl
  · rw [if_neg hb]
    rfl

theorem get_subscriptions_ban_user (st : DBState) (uid banned_by : Int)
    (reason : Option String) :
    get_subscriptions (ban_user st uid banned_by reason) uid = [] := by
  unfold get_subscriptions
  rw [subscriptions_ban_user, List.filter_filter]
  have h : ∀ a : Int × String, (a.1 == uid && !(a.1 == uid)) = false := by
    intro a
    by_cases h : (a.1 == uid) = true <;> simp [h]
  simp [h]

theorem users_reset_warnings (st : DBState) (t : Int) :
    (reset_warnings st t).users
      = st.users.map (fun p => if p.1 == t then (p.1, resetW p.2) else p) := rfl

theorem get_user_warnings_reset_warnings (st : DBState) (t : Int) :
    get_user_warnings (reset_warnings st t) t = 0 := by
  unfold get_user_warnings
  rw [users_reset_warnings, find?_map_upd_eq st.users t resetW]
  cases hf : st.users.find? (fun p => p.1 == t) with
  | none => rfl
  | some e => rfl

theorem is_banned_unban_user (st : DBState) (t : Int) :
    is_banned (unban_user st t).1 t = false := by
  unfold is_banned unban_user
  simp only []
  rw [List.any_eq_false]
  intro x hx
  have := (List.mem_filter.mp hx).2
  simp only [Bool.not_eq_true'] at this
  simp [this]

/-- `_admin_unban` on a banned target takes the reset-and-log branch. -/
theorem admin_unban_banned (st : DBState) (a t : Int)
    (hban : is_banned st t = true) :
    admin_unban st a t
      = (log_admin_action (reset_warnings (unban_user st t).1 t) a "unban_user"
          (some (toString t)) none, true) := by
  unfold admin_unban
  simp only []
  rw [show (unban_user st t).2 = true from hban, if_pos rfl]

/-- The admin list of the moderator auto-ban counterexample. -/
def adminsC9 : List Int := [999, 1000]

/-- State for the moderator auto-ban counterexample: the moderator account
1000 already carries 2 warnings. -/
def stC9 : DBState := ⟨[], [], [], [(1000, ⟨"moderator", 0, 2⟩)], [], []⟩

/-- C9 counterexample: the auto-ban path of `_admin_warn` performs no
admin-target check, so a third `/admin warn` against user 1000 bans them
even though 1000 is in `ADMIN_USER_IDS` — while the direct `/admin ban`
path refuses that same target.  This refutes "a moderator (admin) account
can never reach the banned state by any ban path, including
warning-driven auto-ban". -/
theorem moderator_autoban_counterexample :
    (1000 ∈ adminsC9) ∧
    (admin_ban adminsC9 stC9 999 1000 none
      = (stC9, AdminBanResult.cannotBanAdmin)) ∧
    ((admin_warn stC9 999 1000).2 = some (3, true)) ∧
    (is_banned (admin_warn stC9 999 1000).1 1000 = true) := by
  refine ⟨by decide, by decide, by decide, by decide⟩

/-- C9 amended: what the ban machine actually guarantees.  `ban_user`
always leaves the target banned with no remaining subscriptions, and its
upsert stores the latest `banned_by`/`reason` whether or not the target was
already banned (so re-banning updates rather than errors); the `/admin ban`
command refuses admin targets and already-banned targets without touching
the store; and unbanning a banned user leaves them unbanned, resets their
warning counter to zero, and restores no subscriptions.  (The auto-ban path
of `_admin_warn` is exempt from the admin-target guarantee — see the
counterexample.) -/
theorem ban_state_machine_spec (admins : List Int) (st : DBState)
    (admin_id target_id banned_by : Int) (reason : Option String) :
    (is_banned (ban_user st target_id banned_by reason) target_id = true) ∧
    (get_subscriptions (ban_user st target_id banned_by reason) target_id = []) ∧
    ((ban_user st target_id banned_by reason).banned.find?
        (fun p => p.1 == target_id) = some (target_id, ⟨banned_by, reason⟩)) ∧
    (target_id ∈ admins →
      admin_ban admins st admin_id target_id reason
        = (st, AdminBanResult.cannotBanAdmin)) ∧
    (target_id ∉ admins → is_banned st target_id = true →
      admin_ban admins st admin_id target_id reason
        = (st, AdminBanResult.alreadyBanned)) ∧
    (is_banned st target_id = true →
      is_banned (admin_unban st admin_id target_id).1 target_id = false ∧
      get_user_warnings (admin_unban st admin_id target_id).1 target_id = 0 ∧
      (admin_unban st admin_id target_id).1.subscriptions = st.subscriptions) := by
  refine ⟨is_banned_ban_user st target_id banned_by reason,
    get_subscriptions_ban_user st target_id banned_by reason,
    banned_find_ban_user st target_id banned_by reason, ?_, ?_, ?_⟩
  · intro hmem
    unfold admin_ban
    rw [if_pos hmem]
  · intro hmem hban
    unfold admin_ban
    rw [if_neg hmem, if_pos hban]
  · intro hban
    rw [admin_unban_banned st admin_id target_id hban]
    exact ⟨is_banned_unban_user st target_id,
      get_user_warnings_reset_warnings (unban_user st target_id).1 target_id, rfl⟩

/-! ### C3: driver-level atomicity of `apply_feedback` under failure -/

/-- Failure-injection points for the driver-level write sequence of
`Database.apply_feedback`: the vote upsert or the counter `UPDATE`
statement may raise a storage exception. -/
inductive FailAt where
  | noFail
  | atUpsert
  | atUpdate
deriving DecidableEq, Repr

/-- The sqlite branch of `Database.apply_feedback` (lines 402–451) under
failure injection.  Statements execute one by one on the single shared
connection; the `except Exception` handler runs `await self._conn.commit()`
("release any partial state") before re-raising, so every statement that
already executed is committed.  A failure at the counter `UPDATE` therefore
persists the vote upsert without the matching counter change. -/
def apply_feedback_sqlite (st : DBState) (sid : String) (uid : Int)
    (new_vote : Vote) (fail : FailAt) :
    DBState × Except DBErr (Option Sighting) :=
  let previous := get_user_feedback st sid uid
  if previous = some new_vote then (st, Except.error DBErr.duplicate_vote)
  else
    let d := vote_deltas previous new_vote
    match fail with
    | FailAt.atUpsert => (st, Except.error DBErr.storage)
    | FailAt.atUpdate =>
      (set_feedback st sid uid new_vote, Except.error DBErr.storage)
    | FailAt.noFail =>
      let st1 := set_feedback st sid uid new_vote
      let st2 := update_feedback_counts st1 sid d.1 d.2
      (st2, Except.ok (lookupSighting st2 sid))

/-- The postgres branch of `Database.apply_feedback` (lines 452–490) under
failure injection: the whole sequence runs inside `conn.transaction()`,
which rolls back every statement when any of them raises, so the committed
state is unchanged on any failure. -/
def apply_feedback_pg (st : DBState) (sid : String) (uid : Int)
    (new_vote : Vote) (fail : FailAt) :
    DBState × Except DBErr (Option Sighting) :=
  let previous := get_user_feedback st sid uid
  if previous = some new_vote then (st, Except.error DBErr.duplicate_vote)
  else
    let d := vote_deltas previous new_vote
    match fail with
    | FailAt.atUpsert => (st, Except.error DBErr.storage)
    | FailAt.atUpdate => (st, Except.error DBErr.storage)
    | FailAt.noFail =>
      let st1 := set_feedback st sid uid new_vote
      let st2 := update_feedback_counts st1 sid d.1 d.2
      (st2, Except.ok (lookupSighting st2 sid))

/-- The one-sighting state for the atomicity counterexample: sighting `s1`
by reporter 1 with counters `(0, 0)` and no stored votes. -/
def stC3 : DBState :=
  ⟨[("s1", mkSighting "Bugis" 0 1)], [], [], [], [], []⟩

/-- C3: the claimed atomicity FAILS in the sqlite driver.  When user 2's
negative vote on `s1` hits a storage failure at the counter `UPDATE`, the
sqlite path commits the already-executed vote upsert — the erroring state
stores the vote `("s1", 2, negative)` while `s1`'s counters stay `(0, 0)`,
breaking the counters-equal-votes invariant — whereas the postgres path
rolls back to exactly the starting state.  On the failure-free run both
drivers agree. -/
theorem apply_feedback_atomicity_counterexample :
    (apply_feedback_sqlite stC3 "s1" 2 Vote.negative FailAt.atUpdate =
      ({ stC3 with feedback := [("s1", 2, Vote.negative)] },
        Except.error DBErr.storage)) ∧
    ((apply_feedback_sqlite stC3 "s1" 2 Vote.negative FailAt.atUpdate).1 ≠ stC3) ∧
    (countVotes (apply_feedback_sqlite stC3 "s1" 2 Vote.negative
        FailAt.atUpdate).1.feedback "s1" Vote.negative = 1) ∧
    ((lookupSighting (apply_feedback_sqlite stC3 "s1" 2 Vote.negative
        FailAt.atUpdate).1 "s1").map
      (fun s => (s.feedback_positive, s.feedback_negative)) = some (0, 0)) ∧
    (apply_feedback_pg stC3 "s1" 2 Vote.negative FailAt.atUpdate =
      (stC3, Except.error DBErr.storage)) ∧
    (apply_feedback_pg stC3 "s1" 2 Vote.negative FailAt.atUpsert =
      (stC3, Except.error DBErr.storage)) ∧
    (apply_feedback_sqlite stC3 "s1" 2 Vote.negative FailAt.noFail =
      apply_feedback_pg stC3 "s1" 2 Vote.negative FailAt.noFail) := by
  refine ⟨rfl, by decide, by decide, by decide, rfl, rfl, rfl⟩

/-- C1: in every state reachable by report-creation and feedback
operations, vote rows are unique per (sighting, user), each vote row points
at a stored sighting, and every sighting's counters equal the number of
stored votes of each kind; in particular voting 'positive' then 'negative'
leaves the counters at (0, 1) with a single stored 'negative' vote. -/
theorem feedback_ledger_invariant :
    (∀ (d : ℚ × ℚ → ℚ × ℚ → ℚ) (ops : List Op), Inv (runOps d ops emptyDB)) ∧
    ((lookupSighting (runOps dZero scenarioOps emptyDB) "s1").map
        (fun s => (s.feedback_positive, s.feedback_negative)) = some (0, 1)) ∧
    ((runOps dZero scenarioOps emptyDB).feedback = [("s1", 2, Vote.negative)]) := by
  exact ⟨fun d ops => Inv_runOps d ops emptyDB Inv_emptyDB, by decide, by decide⟩

end ParkWatch
